import Mathlib

/-!
Verification development for the rigid-body contact effector
(`RigidBodyContactEffector.cpp` / `.h`).

The C++ source is shallowly embedded here.  `double` values are modelled as
exact scalars: definitions that only use ring operations and comparisons are
stated over an arbitrary `LinearOrderedCommRing` (the double model is the `ℚ`
instance; concrete integer-valued inputs are evaluated at `ℤ`, where kernel
reduction is available — the inclusion `ℤ → ℚ` commutes with every operation
involved).  Definitions that divide are stated over `ℚ` directly.  Where the
source compares Euclidean norms (square roots) against non-negative
thresholds, the embedding compares the squares; bridging lemmas relate the
two forms.  Every embedded definition mirrors the corresponding source
function statement by statement.
-/

/-- A 3-vector of scalars, modelling `Eigen::Vector3d`. -/
structure Vec3 (α : Type) where
  x : α
  y : α
  z : α
deriving DecidableEq

variable {α : Type} [LinearOrderedCommRing α]

def Vec3.zero : Vec3 α := ⟨0, 0, 0⟩

def Vec3.add (a b : Vec3 α) : Vec3 α := ⟨a.x + b.x, a.y + b.y, a.z + b.z⟩

def Vec3.sub (a b : Vec3 α) : Vec3 α := ⟨a.x - b.x, a.y - b.y, a.z - b.z⟩

def Vec3.neg (a : Vec3 α) : Vec3 α := ⟨-a.x, -a.y, -a.z⟩

def Vec3.smul (c : α) (a : Vec3 α) : Vec3 α := ⟨c * a.x, c * a.y, c * a.z⟩

/-- `Eigen` dot product of two 3-vectors. -/
def Vec3.dot (a b : Vec3 α) : α := a.x * b.x + a.y * b.y + a.z * b.z

/-- `Eigen` cross product of two 3-vectors. -/
def Vec3.cross (a b : Vec3 α) : Vec3 α :=
  ⟨a.y * b.z - a.z * b.y, a.z * b.x - a.x * b.z, a.x * b.y - a.y * b.x⟩

/-- Squared Euclidean norm (the source uses `.norm()`; comparisons of norms
against non-negative bounds are equivalently comparisons of their squares). -/
def Vec3.normSq (a : Vec3 α) : α := a.x * a.x + a.y * a.y + a.z * a.z

/-- Squared distance between two points. -/
def Vec3.distSq (a b : Vec3 α) : α := (a.sub b).normSq

/-- A 3x3 matrix given by rows, modelling `Eigen::Matrix3d`. -/
structure Mat3 (α : Type) where
  r1 : Vec3 α
  r2 : Vec3 α
  r3 : Vec3 α
deriving DecidableEq

def Mat3.mulVec (m : Mat3 α) (v : Vec3 α) : Vec3 α :=
  ⟨m.r1.dot v, m.r2.dot v, m.r3.dot v⟩

def Mat3.id : Mat3 α := ⟨⟨1, 0, 0⟩, ⟨0, 1, 0⟩, ⟨0, 0, 1⟩⟩

/-- Struct `vectorInterval`: bounds of a vector over a time interval
(header lines 53-57). -/
structure vectorInterval (α : Type) where
  lower : Vec3 α
  upper : Vec3 α
deriving DecidableEq

/-- Componentwise membership of a sample vector in a `vectorInterval`:
each component lies between the corresponding `lower` and `upper` entries. -/
def vectorInterval.mem (v : Vec3 α) (I : vectorInterval α) : Prop :=
  I.lower.x ≤ v.x ∧ v.x ≤ I.upper.x ∧
  I.lower.y ≤ v.y ∧ v.y ≤ I.upper.y ∧
  I.lower.z ≤ v.z ∧ v.z ≤ I.upper.z

instance (v : Vec3 α) (I : vectorInterval α) : Decidable (vectorInterval.mem v I) := by
  unfold vectorInterval.mem; infer_instance

/-- Minimum of the four endpoint products of two scalar intervals, as produced
by `std::min_element` over the four `push_back`ed products. -/
def min4 (a b c d : α) : α := min (min a b) (min c d)

/-- Maximum of the four endpoint products, as produced by `std::max_element`. -/
def max4 (a b c d : α) : α := max (max a b) (max c d)

/-- `RigidBodyContactEffector::IntervalDotProduct` (source lines 1566-1593).
Returns the pair `(result[0], result[1])`: for each component the four products
of interval endpoints are enumerated, and the lower (upper) output is the sum
over components of the minimum (maximum) product. -/
def IntervalDotProduct (vectorA vectorB : vectorInterval α) : α × α :=
  let c1min := min4 (vectorA.lower.x * vectorB.lower.x) (vectorA.lower.x * vectorB.upper.x)
      (vectorA.upper.x * vectorB.lower.x) (vectorA.upper.x * vectorB.upper.x)
  let c1max := max4 (vectorA.lower.x * vectorB.lower.x) (vectorA.lower.x * vectorB.upper.x)
      (vectorA.upper.x * vectorB.lower.x) (vectorA.upper.x * vectorB.upper.x)
  let c2min := min4 (vectorA.lower.y * vectorB.lower.y) (vectorA.lower.y * vectorB.upper.y)
      (vectorA.upper.y * vectorB.lower.y) (vectorA.upper.y * vectorB.upper.y)
  let c2max := max4 (vectorA.lower.y * vectorB.lower.y) (vectorA.lower.y * vectorB.upper.y)
      (vectorA.upper.y * vectorB.lower.y) (vectorA.upper.y * vectorB.upper.y)
  let c3min := min4 (vectorA.lower.z * vectorB.lower.z) (vectorA.lower.z * vectorB.upper.z)
      (vectorA.upper.z * vectorB.lower.z) (vectorA.upper.z * vectorB.upper.z)
  let c3max := max4 (vectorA.lower.z * vectorB.lower.z) (vectorA.lower.z * vectorB.upper.z)
      (vectorA.upper.z * vectorB.lower.z) (vectorA.upper.z * vectorB.upper.z)
  (c1min + c2min + c3min, c1max + c2max + c3max)

/-- `RigidBodyContactEffector::IntervalCrossProduct` (source lines 1595-1642).
For each output component the source takes `min_element` (resp. `max_element`)
of the four endpoint products of each of the two contributing terms and forms
`lower = min(first term) - min(second term)`,
`upper = max(first term) - max(second term)`. -/
def IntervalCrossProduct (vectorA vectorB : vectorInterval α) : vectorInterval α :=
  let a2b3min := min4 (vectorA.lower.y * vectorB.lower.z) (vectorA.lower.y * vectorB.upper.z)
      (vectorA.upper.y * vectorB.lower.z) (vectorA.upper.y * vectorB.upper.z)
  let a2b3max := max4 (vectorA.lower.y * vectorB.lower.z) (vectorA.lower.y * vectorB.upper.z)
      (vectorA.upper.y * vectorB.lower.z) (vectorA.upper.y * vectorB.upper.z)
  let a3b2min := min4 (vectorA.lower.z * vectorB.lower.y) (vectorA.lower.z * vectorB.upper.y)
      (vectorA.upper.z * vectorB.lower.y) (vectorA.upper.z * vectorB.upper.y)
  let a3b2max := max4 (vectorA.lower.z * vectorB.lower.y) (vectorA.lower.z * vectorB.upper.y)
      (vectorA.upper.z * vectorB.lower.y) (vectorA.upper.z * vectorB.upper.y)
  let a3b1min := min4 (vectorA.lower.z * vectorB.lower.x) (vectorA.lower.z * vectorB.upper.x)
      (vectorA.upper.z * vectorB.lower.x) (vectorA.upper.z * vectorB.upper.x)
  let a3b1max := max4 (vectorA.lower.z * vectorB.lower.x) (vectorA.lower.z * vectorB.upper.x)
      (vectorA.upper.z * vectorB.lower.x) (vectorA.upper.z * vectorB.upper.x)
  let a1b3min := min4 (vectorA.lower.x * vectorB.lower.z) (vectorA.lower.x * vectorB.upper.z)
      (vectorA.upper.x * vectorB.lower.z) (vectorA.upper.x * vectorB.upper.z)
  let a1b3max := max4 (vectorA.lower.x * vectorB.lower.z) (vectorA.lower.x * vectorB.upper.z)
      (vectorA.upper.x * vectorB.lower.z) (vectorA.upper.x * vectorB.upper.z)
  let a1b2min := min4 (vectorA.lower.x * vectorB.lower.y) (vectorA.lower.x * vectorB.upper.y)
      (vectorA.upper.x * vectorB.lower.y) (vectorA.upper.x * vectorB.upper.y)
  let a1b2max := max4 (vectorA.lower.x * vectorB.lower.y) (vectorA.lower.x * vectorB.upper.y)
      (vectorA.upper.x * vectorB.lower.y) (vectorA.upper.x * vectorB.upper.y)
  let a2b1min := min4 (vectorA.lower.y * vectorB.lower.x) (vectorA.lower.y * vectorB.upper.x)
      (vectorA.upper.y * vectorB.lower.x) (vectorA.upper.y * vectorB.upper.x)
  let a2b1max := max4 (vectorA.lower.y * vectorB.lower.x) (vectorA.lower.y * vectorB.upper.x)
      (vectorA.upper.y * vectorB.lower.x) (vectorA.upper.y * vectorB.upper.x)
  { lower := ⟨a2b3min - a3b2min, a3b1min - a1b3min, a1b2min - a2b1min⟩
    upper := ⟨a2b3max - a3b2max, a3b1max - a1b3max, a1b2max - a2b1max⟩ }

/-- A product of two interval-constrained scalars is bounded below by the least
of the four endpoint products. -/
theorem min4_le_mul {al au bl bu a b : α} (ha1 : al ≤ a) (ha2 : a ≤ au)
    (hb1 : bl ≤ b) (hb2 : b ≤ bu) :
    min4 (al * bl) (al * bu) (au * bl) (au * bu) ≤ a * b := by
  unfold min4
  rcases le_or_lt 0 b with hb | hb
  · rcases le_or_lt 0 al with hal | hal
    · calc min (min (al * bl) (al * bu)) (min (au * bl) (au * bu)) ≤ al * bl :=
            le_trans (min_le_left _ _) (min_le_left _ _)
        _ ≤ al * b := mul_le_mul_of_nonneg_left hb1 hal
        _ ≤ a * b := mul_le_mul_of_nonneg_right ha1 hb
    · calc min (min (al * bl) (al * bu)) (min (au * bl) (au * bu)) ≤ al * bu :=
            le_trans (min_le_left _ _) (min_le_right _ _)
        _ ≤ al * b := mul_le_mul_of_nonpos_left hb2 (le_of_lt hal)
        _ ≤ a * b := mul_le_mul_of_nonneg_right ha1 hb
  · rcases le_or_lt 0 au with hau | hau
    · calc min (min (al * bl) (al * bu)) (min (au * bl) (au * bu)) ≤ au * bl :=
            le_trans (min_le_right _ _) (min_le_left _ _)
        _ ≤ au * b := mul_le_mul_of_nonneg_left hb1 hau
        _ ≤ a * b := mul_le_mul_of_nonpos_right ha2 (le_of_lt hb)
    · calc min (min (al * bl) (al * bu)) (min (au * bl) (au * bu)) ≤ au * bu :=
            le_trans (min_le_right _ _) (min_le_right _ _)
        _ ≤ au * b := mul_le_mul_of_nonpos_left hb2 (le_of_lt hau)
        _ ≤ a * b := mul_le_mul_of_nonpos_right ha2 (le_of_lt hb)

/-- A product of interval-constrained scalars is bounded above by the greatest
of the four endpoint products. -/
theorem mul_le_max4 {al au bl bu a b : α} (ha1 : al ≤ a) (ha2 : a ≤ au)
    (hb1 : bl ≤ b) (hb2 : b ≤ bu) :
    a * b ≤ max4 (al * bl) (al * bu) (au * bl) (au * bu) := by
  have h := @min4_le_mul α _ (-au) (-al) bl bu (-a) b
    (by linarith) (by linarith) hb1 hb2
  unfold min4 at h
  unfold max4
  have hrw : (-au * bl) = -(au * bl) := by ring
  have hrw2 : (-au * bu) = -(au * bu) := by ring
  have hrw3 : (-al * bl) = -(al * bl) := by ring
  have hrw4 : (-al * bu) = -(al * bu) := by ring
  rw [hrw, hrw2, hrw3, hrw4] at h
  rw [min_neg_neg, min_neg_neg, min_neg_neg] at h
  have hne : -a * b = -(a * b) := by ring
  rw [hne, neg_le_neg_iff] at h
  calc a * b ≤ max (max (au * bl) (au * bu)) (max (al * bl) (al * bu)) := h
    _ = max (max (al * bl) (al * bu)) (max (au * bl) (au * bu)) := max_comm _ _

/-- Soundness of the interval dot product: for samples `a`, `b` lying
componentwise inside `A`, `B`, the scalar `a · b` lies between the two bounds
returned by `IntervalDotProduct A B`.  (This half of the interval kernel is
correct; the cross product is not, see `C1_interval_cross_unsound`.) -/
theorem IntervalDotProduct_sound (A B : vectorInterval α) (a b : Vec3 α)
    (ha : vectorInterval.mem a A) (hb : vectorInterval.mem b B) :
    (IntervalDotProduct A B).1 ≤ a.dot b ∧ a.dot b ≤ (IntervalDotProduct A B).2 := by
  obtain ⟨hax1, hax2, hay1, hay2, haz1, haz2⟩ := ha
  obtain ⟨hbx1, hbx2, hby1, hby2, hbz1, hbz2⟩ := hb
  unfold IntervalDotProduct Vec3.dot
  constructor
  · have h1 := min4_le_mul hax1 hax2 hbx1 hbx2
    have h2 := min4_le_mul hay1 hay2 hby1 hby2
    have h3 := min4_le_mul haz1 haz2 hbz1 hbz2
    dsimp only
    linarith
  · have h1 := mul_le_max4 hax1 hax2 hbx1 hbx2
    have h2 := mul_le_max4 hay1 hay2 hby1 hby2
    have h3 := mul_le_max4 haz1 haz2 hbz1 hbz2
    dsimp only
    linarith

/-- Witness for `IntervalDotProduct_sound` at a concrete input. -/
theorem IntervalDotProduct_sound_witness :
    (IntervalDotProduct (α := ℤ) ⟨⟨0, 0, 0⟩, ⟨1, 1, 1⟩⟩ ⟨⟨1, 0, 0⟩, ⟨2, 0, 0⟩⟩).1 ≤
      Vec3.dot (α := ℤ) ⟨1, 0, 1⟩ ⟨1, 0, 0⟩ :=
  (IntervalDotProduct_sound ⟨⟨0, 0, 0⟩, ⟨1, 1, 1⟩⟩ ⟨⟨1, 0, 0⟩, ⟨2, 0, 0⟩⟩
    ⟨1, 0, 1⟩ ⟨1, 0, 0⟩ (by decide) (by decide)).1

/-- C1: refuted on the code — the code, not the claim, is wrong.  The claim
asserts that for every pair of vectorIntervals `A`, `B` and all samples
`a ∈ A`, `b ∈ B`, every component of `a × b` lies within the component bounds
returned by `IntervalCrossProduct A B` (and `a · b` within
`IntervalDotProduct A B`, which does hold: `IntervalDotProduct_sound`).  At
the concrete input below the cross-product half fails: with
`A = [(0,0,0), (0,0,1)]`, `B` the degenerate interval at `(0,1,0)`,
`a = (0,0,1) ∈ A` and `b = (0,1,0) ∈ B`, the true cross product has
`(a × b).x = -1`, yet the returned lower bound for the x component is `0`
(the returned upper bound is even `-1`): the source forms
`lower = min(a2b3) - min(a3b2)` and `upper = max(a2b3) - max(a3b2)` instead
of the sound `min - max` / `max - min`, although its enumeration of endpoint
products shows a sound enclosure is intended. -/
theorem C1_interval_cross_unsound :
    vectorInterval.mem (α := ℤ) ⟨0, 0, 1⟩ ⟨⟨0, 0, 0⟩, ⟨0, 0, 1⟩⟩ ∧
    vectorInterval.mem (α := ℤ) ⟨0, 1, 0⟩ ⟨⟨0, 1, 0⟩, ⟨0, 1, 0⟩⟩ ∧
    (Vec3.cross (α := ℤ) ⟨0, 0, 1⟩ ⟨0, 1, 0⟩).x = -1 ∧
    (IntervalCrossProduct (α := ℤ) ⟨⟨0, 0, 0⟩, ⟨0, 0, 1⟩⟩ ⟨⟨0, 1, 0⟩, ⟨0, 1, 0⟩⟩).lower.x = 0 ∧
    ¬ ((IntervalCrossProduct (α := ℤ) ⟨⟨0, 0, 0⟩, ⟨0, 0, 1⟩⟩
          ⟨⟨0, 1, 0⟩, ⟨0, 1, 0⟩⟩).lower.x ≤
        (Vec3.cross (α := ℤ) ⟨0, 0, 1⟩ ⟨0, 1, 0⟩).x) := by
  refine ⟨by decide, by decide, by decide, by decide, by decide⟩

/-! ### Impulse solver: collision-state derivative, seeding, integration loop

`CollisionStateDerivative` (source lines 1241-1270) uses `atan2`, `cos`, `sin`
on the tangential velocity components.  These transcendental calls are
modelled by an explicit parameter
`trig : α → α → α × α`, where `trig y x` stands for
`(cos(atan2(y, x)), sin(atan2(y, x)))`; every theorem below holds for every
such parameter, and concrete evaluations choose inputs at which the modelled
value is exact (e.g. `atan2 0 1 = 0`, so `trig 0 1 = (1, 0)`).
Inside the source function the `impacts` argument is used only through
`impacts.size()`, which is the parameter `K` here.  `X_c` is modelled as
`ℕ → α` (entries outside `[0, 8K)` are never read or written). -/

/-- The restitution-energy condition of contact `k` not yet being met:
`X_c(6K+2k+1) < -(e^2 * X_c(6K+2k))`, the guard used both for the impulse-rate
block (line 1250) and the restitution-work accumulator (line 1261). -/
def contactUnresolved (e : α) (K k : ℕ) (X : ℕ → α) : Prop :=
  X (6 * K + 2 * k + 1) < -(e ^ 2 * X (6 * K + 2 * k))

instance (e : α) (K k : ℕ) (X : ℕ → α) : Decidable (contactUnresolved e K k X) := by
  unfold contactUnresolved; infer_instance

/-- Impulse-rate entry for contact `k`, component `c ∈ {0,1,2}` (lines
1250-1256): while the contact is unresolved the tangential components are
`-μ cos φ`, `-μ sin φ` with `φ = atan2(X_c(3k+1), X_c(3k))` and the normal
component is `1`; otherwise the entry keeps its zero initialisation. -/
def impulseRateEntry (trig : α → α → α × α) (e μ : α) (K k c : ℕ) (X : ℕ → α) : α :=
  if contactUnresolved e K k X then
    if c = 0 then -μ * (trig (X (3 * k + 1)) (X (3 * k))).1
    else if c = 1 then -μ * (trig (X (3 * k + 1)) (X (3 * k))).2
    else 1
  else 0

/-- Work-rate entry for contact `k`, slot `r ∈ {0,1}` (lines 1258-1264):
while the normal relative velocity `X_c(3k+2)` is negative the compression
slot accumulates it; otherwise, while the contact is unresolved, the
restitution slot accumulates it. -/
def workRateEntry (e : α) (K k r : ℕ) (X : ℕ → α) : α :=
  if X (3 * k + 2) < 0 then (if r = 0 then X (3 * k + 2) else 0)
  else if contactUnresolved e K k X then (if r = 1 then X (3 * k + 2) else 0)
  else 0

/-- The entries of `Xdot_c` other than the leading velocity block: the
impulse-rate block occupies `[3K, 6K)` and the work block `[6K, 8K)`;
all other entries keep the `Eigen::VectorXd::Zero` initialisation. -/
def XdotTail (trig : α → α → α × α) (e μ : α) (K : ℕ) (X : ℕ → α) (i : ℕ) : α :=
  if 3 * K ≤ i ∧ i < 6 * K then
    impulseRateEntry trig e μ K ((i - 3 * K) / 3) ((i - 3 * K) % 3) X
  else if 6 * K ≤ i ∧ i < 8 * K then
    workRateEntry e K ((i - 6 * K) / 2) ((i - 6 * K) % 2) X
  else 0

/-- `RigidBodyContactEffector::CollisionStateDerivative` (lines 1241-1270):
after the per-contact writes, the leading block is overwritten with
`M_tot * Xdot_c.segment(3K, 3K)` (line 1267). -/
def CollisionStateDerivative (trig : α → α → α × α) (K : ℕ) (M : ℕ → ℕ → α)
    (e μ : α) (X : ℕ → α) : ℕ → α := fun i =>
  if i < 3 * K then
    ∑ j ∈ Finset.range (3 * K), M i j * XdotTail trig e μ K X (3 * K + j)
  else XdotTail trig e μ K X i

/-- C4 (amended): in `CollisionStateDerivative`, for every contact `k < K` the
tangential impulse-rate components equal `-μ cos φ` and `-μ sin φ` with
`φ = atan2(X_c(3k+1), X_c(3k))` exactly while the restitution-energy condition
`W_r(k) < -e² W_c(k)` has not yet been met — which includes the whole
compression phase — and are zero once it is met.  (The original claim said
the tangential components are active only during the restitution phase and
zero during compression; `C4_friction_during_compression` refutes that.) -/
theorem C4_tangential_rate_iff_unresolved (trig : α → α → α × α) (K : ℕ)
    (M : ℕ → ℕ → α) (e μ : α) (X : ℕ → α) (k : ℕ) (hk : k < K) :
    (CollisionStateDerivative trig K M e μ X (3 * K + 3 * k),
     CollisionStateDerivative trig K M e μ X (3 * K + 3 * k + 1)) =
      if contactUnresolved e K k X then
        (-μ * (trig (X (3 * k + 1)) (X (3 * k))).1,
         -μ * (trig (X (3 * k + 1)) (X (3 * k))).2)
      else (0, 0) := by
  have h1 : ¬ (3 * K + 3 * k < 3 * K) := by omega
  have h2 : ¬ (3 * K + 3 * k + 1 < 3 * K) := by omega
  have h3 : 3 * K ≤ 3 * K + 3 * k ∧ 3 * K + 3 * k < 6 * K := by omega
  have h4 : 3 * K ≤ 3 * K + 3 * k + 1 ∧ 3 * K + 3 * k + 1 < 6 * K := by omega
  have h5 : (3 * K + 3 * k - 3 * K) / 3 = k := by omega
  have h6 : (3 * K + 3 * k - 3 * K) % 3 = 0 := by omega
  have h7 : (3 * K + 3 * k + 1 - 3 * K) / 3 = k := by omega
  have h8 : (3 * K + 3 * k + 1 - 3 * K) % 3 = 1 := by omega
  simp only [CollisionStateDerivative, XdotTail, h1, h2, h3, h4, h5, h6, h7, h8,
    if_false, if_true, and_self, impulseRateEntry]
  by_cases hc : contactUnresolved e K k X
  · simp [hc]
  · simp [hc]

/-- Witness for `C4_tangential_rate_iff_unresolved` at `K = 1`, `k = 0`. -/
theorem C4_tangential_rate_iff_unresolved_witness :
    (0 : ℕ) < 1 ∧
    (CollisionStateDerivative (α := ℤ) (fun _ _ => (1, 0)) 1 (fun _ _ => 0) 1 1
        (fun i => [1, 0, -1, 0, 0, 0, 0, -1].getD i 0) (3 * 1 + 3 * 0),
     CollisionStateDerivative (α := ℤ) (fun _ _ => (1, 0)) 1 (fun _ _ => 0) 1 1
        (fun i => [1, 0, -1, 0, 0, 0, 0, -1].getD i 0) (3 * 1 + 3 * 0 + 1)) =
      if contactUnresolved (α := ℤ) 1 1 0 (fun i => [1, 0, -1, 0, 0, 0, 0, -1].getD i 0) then
        (-1 * ((1 : ℤ), (0 : ℤ)).1, -1 * ((1 : ℤ), (0 : ℤ)).2)
      else (0, 0) :=
  ⟨by decide,
   C4_tangential_rate_iff_unresolved (fun _ _ => (1, 0)) 1 (fun _ _ => 0) 1 1
     (fun i => [1, 0, -1, 0, 0, 0, 0, -1].getD i 0) 0 (by decide)⟩

/-- C4 counterexample: the claim as stated is false.  Concrete single-contact
state over `ℤ` (a subring of the double model `ℚ`): relative contact velocity
`(1, 0, -1)` — so the normal component `X_c(2) = -1` is negative and the
compression-work accumulator is still accumulating
(`Xdot_c(6) = X_c(2) = -1 ≠ 0`, so the contact is in its compression phase) —
with `W_c = X_c(6) = 0`, `W_r = X_c(7) = -1`, `e = 1`, `μ = 1`, and the trig
oracle evaluated at `atan2(0, 1) = 0` (hence exactly `(cos 0, sin 0) = (1, 0)`).
The claim asserts the tangential impulse-rate components are zero during the
compression phase; the code yields `Xdot_c(3) = -μ cos φ = -1 ≠ 0`. -/
theorem C4_friction_during_compression :
    ((fun i => [1, 0, -1, 0, 0, 0, 0, -1].getD i 0) : ℕ → ℤ) 2 < 0 ∧
    CollisionStateDerivative (α := ℤ) (fun _ _ => (1, 0)) 1 (fun _ _ => 0) 1 1
      (fun i => [1, 0, -1, 0, 0, 0, 0, -1].getD i 0) 6 = -1 ∧
    CollisionStateDerivative (α := ℤ) (fun _ _ => (1, 0)) 1 (fun _ _ => 0) 1 1
      (fun i => [1, 0, -1, 0, 0, 0, 0, -1].getD i 0) 3 = -1 := by
  refine ⟨by decide, by decide, by decide⟩

/-- Initialisation of the collision state `X_c` in `computeForceTorque`
(lines 1090-1105).  The first `3K` entries are the initial contact-frame
relative velocities (their computation from the body states is the expression
on line 1095 and is passed in here as `vel`); all remaining entries keep the
`Eigen::VectorXd::Zero` initialisation except that for each contact `k` the
entry `6K + 2k + 1` is seeded with `-10⁻¹⁴` if `X_c(3k) < 0` and `+10⁻¹⁴`
otherwise (lines 1097-1104; note the test reads `X_c(3k)`, the *first*
component of the velocity block, and only the `+1` slot is written). -/
def initializeCollisionState (K : ℕ) (vel : ℕ → Vec3 ℚ) : ℕ → ℚ := fun i =>
  if i < 3 * K then
    (if i % 3 = 0 then (vel (i / 3)).x else if i % 3 = 1 then (vel (i / 3)).y
     else (vel (i / 3)).z)
  else if 6 * K ≤ i ∧ i < 8 * K ∧ (i - 6 * K) % 2 = 1 then
    (if (vel ((i - 6 * K) / 2)).x < 0 then -(1 / 10 ^ 14) else 1 / 10 ^ 14)
  else 0

/-- C5 (amended): when `computeForceTorque` initialises the collision state for
`K` contacts, for every contact `k` only the restitution-work entry
`X_c[6K+2k+1]` is seeded: it is `-10⁻¹⁴` if the *first* entry of contact `k`'s
velocity block (the tangential component `X_c[3k]`) is negative and `+10⁻¹⁴`
otherwise, while the compression-work entry `X_c[6K+2k]` remains `0`.
(The original claim — both entries seeded, keyed on the *third*, normal,
component — is refuted by `C5_seeding_counterexample`.) -/
theorem C5_seeding (K : ℕ) (vel : ℕ → Vec3 ℚ) (k : ℕ) (hk : k < K) :
    initializeCollisionState K vel (6 * K + 2 * k) = 0 ∧
    initializeCollisionState K vel (6 * K + 2 * k + 1) =
      (if (vel k).x < 0 then -(1 / 10 ^ 14) else 1 / 10 ^ 14) := by
  have h1 : ¬ (6 * K + 2 * k < 3 * K) := by omega
  have h2 : ¬ (6 * K + 2 * k + 1 < 3 * K) := by omega
  have h3 : ¬ (6 * K ≤ 6 * K + 2 * k ∧ 6 * K + 2 * k < 8 * K ∧
      (6 * K + 2 * k - 6 * K) % 2 = 1) := by omega
  have h4 : 6 * K ≤ 6 * K + 2 * k + 1 ∧ 6 * K + 2 * k + 1 < 8 * K ∧
      (6 * K + 2 * k + 1 - 6 * K) % 2 = 1 := by omega
  have h5 : (6 * K + 2 * k + 1 - 6 * K) / 2 = k := by omega
  constructor
  · simp only [initializeCollisionState, h1, h3, if_false]
  · unfold initializeCollisionState
    rw [if_neg h2, if_pos h4, h5]

/-- Witness for `C5_seeding` at `K = 1`, `k = 0`, velocity `(1, 2, -3)`. -/
theorem C5_seeding_witness :
    (0 : ℕ) < 1 ∧
    (initializeCollisionState 1 (fun _ => ⟨1, 2, -3⟩) (6 * 1 + 2 * 0) = 0 ∧
     initializeCollisionState 1 (fun _ => ⟨1, 2, -3⟩) (6 * 1 + 2 * 0 + 1) =
       (if ((⟨1, 2, -3⟩ : Vec3 ℚ)).x < 0 then -(1 / 10 ^ 14) else 1 / 10 ^ 14)) :=
  ⟨by decide, C5_seeding 1 (fun _ => ⟨1, 2, -3⟩) 0 (by decide)⟩

/-- C5 counterexample: a single contact with initial contact-frame relative
velocity `(1, 2, -3)`.  Its normal component (third entry of the velocity
block) is `-3 < 0`, so the claim demands both work entries `X_c[6]` and
`X_c[7]` be seeded to `-10⁻¹⁴`.  The code leaves the compression entry
`X_c[6] = 0` and seeds `X_c[7] = +10⁻¹⁴` (because it keys on the first entry
`X_c[0] = 1 ≥ 0`), so both demanded equalities fail. -/
theorem C5_seeding_counterexample :
    initializeCollisionState 1 (fun _ => ⟨1, 2, -3⟩) 2 = -3 ∧
    ¬ (initializeCollisionState 1 (fun _ => ⟨1, 2, -3⟩) 6 = -(1 / 10 ^ 14)) ∧
    ¬ (initializeCollisionState 1 (fun _ => ⟨1, 2, -3⟩) 7 = -(1 / 10 ^ 14)) := by
  refine ⟨?_, ?_, ?_⟩ <;> norm_num [initializeCollisionState]

/-- One classical RK4 step of the collision ODE with step
`collisionIntegrationStep` (lines 1115-1119). -/
def rk4Step (trig : ℚ → ℚ → ℚ × ℚ) (K : ℕ) (M : ℕ → ℕ → ℚ) (e μ h : ℚ)
    (X : ℕ → ℚ) : ℕ → ℚ :=
  let k1 := CollisionStateDerivative trig K M e μ X
  let k2 := CollisionStateDerivative trig K M e μ (fun i => X i + h * (k1 i / 2))
  let k3 := CollisionStateDerivative trig K M e μ (fun i => X i + h * (k2 i / 2))
  let k4 := CollisionStateDerivative trig K M e μ (fun i => X i + h * k3 i)
  fun i => X i + h / 6 * (k1 i + 2 * k2 i + 2 * k3 i + k4 i)

/-- The loop's per-iteration energy check (lines 1121-1130): `energyMet` stays
`true` iff no contact `k < K` still satisfies the unresolved condition. -/
def energyMetB (e : ℚ) (K : ℕ) (X : ℕ → ℚ) : Bool :=
  (List.range K).all (fun k => ! decide (contactUnresolved e K k X))

/-- The iteration cap `loopMax = 1e9` (line 1110). -/
def loopMax : ℕ := 10 ^ 9

/-- The collision integration loop of `computeForceTorque` (lines 1108-1141),
for an arbitrary loop body `step` and termination check `met`.  Each pass
increments `currLoop`, steps the state, and exits when the energy check
passes or `currLoop > loopMax` (the cap forces `energyMet = true`).  The
fuel argument makes the recursion structural; `collisionIntegrate` supplies
`loopMax + 1` fuel, which `C6_collision_loop_terminates` shows is never
exhausted.  Returns the final state and the final value of `currLoop`. -/
def collisionLoopAux {σ : Type} (step : σ → σ) (met : σ → Bool) :
    ℕ → ℕ → σ → σ × ℕ
  | 0, currLoop, X => (X, currLoop)
  | fuel + 1, currLoop, X =>
    let X2 := step X
    let currLoop2 := currLoop + 1
    if met X2 || decide (currLoop2 > loopMax) then (X2, currLoop2)
    else collisionLoopAux step met fuel currLoop2 X2

/-- The collision integration loop instantiated with the RK4 step of
`CollisionStateDerivative` and the energy check, started from `currLoop = 0`
as in the source. -/
def collisionIntegrate (trig : ℚ → ℚ → ℚ × ℚ) (K : ℕ) (M : ℕ → ℕ → ℚ)
    (e μ h : ℚ) (X0 : ℕ → ℚ) : (ℕ → ℚ) × ℕ :=
  collisionLoopAux (rk4Step trig K M e μ h) (energyMetB e K) (loopMax + 1) 0 X0

/-- Exit property of the generic loop: started with matching fuel, it performs
at most `loopMax + 1` iterations and on exit either the termination check
holds or exactly `loopMax + 1` iterations were performed (the cap case). -/
theorem collisionLoopAux_exit {σ : Type} (step : σ → σ) (met : σ → Bool) :
    ∀ (fuel currLoop : ℕ) (X : σ), currLoop + fuel = loopMax + 1 → 0 < fuel →
    (collisionLoopAux step met fuel currLoop X).2 ≤ loopMax + 1 ∧
    (met (collisionLoopAux step met fuel currLoop X).1 = true ∨
      (collisionLoopAux step met fuel currLoop X).2 = loopMax + 1) := by
  intro fuel
  induction fuel with
  | zero => intro currLoop X _ h0; omega
  | succ n ih =>
    intro currLoop X hsum _
    rw [collisionLoopAux]
    by_cases hstop : (met (step X) || decide (currLoop + 1 > loopMax)) = true
    · rw [if_pos hstop]
      rcases Bool.or_eq_true_iff.mp hstop with hmet | hcap
      · exact ⟨by omega, Or.inl hmet⟩
      · have : currLoop + 1 > loopMax := of_decide_eq_true hcap
        exact ⟨by omega, Or.inr (by omega)⟩
    · rw [if_neg hstop]
      have hn : 0 < n := by
        rcases Nat.eq_zero_or_pos n with h0 | h1
        · subst h0
          have : currLoop = loopMax := by omega
          subst this
          simp at hstop
        · exact h1
      exact ih (currLoop + 1) (step X) (by omega) hn

/-- C6: the RK4 collision-integration loop always terminates after at most
`10⁹ + 1` iterations, and at exit either every contact `k < K` satisfies the
energy condition `W_r(k) ≥ -e² W_c(k)` or the iteration cap was reached
(the current collision state being returned either way). -/
theorem C6_collision_loop_terminates (trig : ℚ → ℚ → ℚ × ℚ) (K : ℕ)
    (M : ℕ → ℕ → ℚ) (e μ h : ℚ) (X0 : ℕ → ℚ) :
    (collisionIntegrate trig K M e μ h X0).2 ≤ 10 ^ 9 + 1 ∧
    ((∀ k < K, -(e ^ 2 * (collisionIntegrate trig K M e μ h X0).1 (6 * K + 2 * k)) ≤
        (collisionIntegrate trig K M e μ h X0).1 (6 * K + 2 * k + 1)) ∨
      (collisionIntegrate trig K M e μ h X0).2 = 10 ^ 9 + 1) := by
  have hbase := collisionLoopAux_exit (rk4Step trig K M e μ h) (energyMetB e K)
    (loopMax + 1) 0 X0 (by omega) (by omega)
  unfold collisionIntegrate
  have hlm : loopMax = 10 ^ 9 := rfl
  refine ⟨by rw [← hlm]; exact hbase.1, ?_⟩
  rcases hbase.2 with hmet | hcap
  · left
    intro k hk
    have := List.all_eq_true.mp hmet k (List.mem_range.mpr hk)
    simp only [Bool.not_eq_true', decide_eq_false_iff_not, contactUnresolved] at this
    linarith [not_lt.mp this]
  · right; rw [← hlm]; exact hcap

/-! ### Per-body data model

The subset of the structs `halfEdge`, `dynamicData`, `boundingBoxDetail`,
`indivBoundingBox` and `geometry` (header lines 47-136) read or written by the
embedded functions.  Fields of the source structs that no embedded function
touches (message buffers, TinyOBJLoader data, `faceNormals` and the per-face
centroid/bounding data, whose values are irrational in general and which no
claim involves) are omitted. -/

/-- Struct `boundingBoxDetail` (header lines 47-50). -/
structure boundingBoxDetail where
  parentIndices : ℕ × ℕ
  overlaps : List (ℕ × ℕ)
deriving DecidableEq

/-- Struct `indivBoundingBox` (header lines 59-64). -/
structure indivBoundingBox (α : Type) where
  xAxisInterval : vectorInterval α
  yAxisInterval : vectorInterval α
  zAxisInterval : vectorInterval α
  halfSize : Vec3 α
deriving DecidableEq

/-- Struct `halfEdge` (header lines 66-78): a face cluster.  Triangles and the
edge data are vertex-index based; `faceIndices` stores, per stored edge, the
triple (face in this cluster, cluster of the partner face, partner face). -/
structure halfEdge (α : Type) where
  faceTriangles : List (ℕ × ℕ × ℕ)
  edgeIndices : List (ℕ × ℕ)
  faceIndices : List (ℕ × ℕ × ℕ)
  uniqueVertIndices : List ℕ
  centroid : Vec3 α
  boundingBox : Vec3 α
deriving DecidableEq

/-- Struct `dynamicData` (header lines 80-97), restricted to the kinematic
fields the embedded phases read. -/
structure dynamicData (α : Type) where
  r_BN_N : Vec3 α
  v_BN_N : Vec3 α
  dcm_NB : Mat3 α
  dcm_BN : Mat3 α
deriving DecidableEq

/-- Struct `geometry` (header lines 113-136), restricted to the fields the
embedded phases read or write. -/
structure geometry (α : Type) where
  boundingRadius : α
  isSpice : Bool
  vertices : List (Vec3 α)
  polyhedron : List (halfEdge α)
  coarseSearchList : boundingBoxDetail
  states : dynamicData α
  futureStates : dynamicData α
  forceExternal_N : List (Vec3 α)
  torqueExternalPntB_B : List (Vec3 α)
  impactTimes : List α
  impactTimeSteps : List α
deriving DecidableEq

/-! ### Broad phase: `CheckBoundingSphere` (source lines 1385-1407) -/

/-- The two endpoints of the interval dot product of the position-difference
interval with itself, for a body pair (lines 1398-1400). -/
def sphereDistBounds (b1 b2 : geometry α) : α × α :=
  IntervalDotProduct
    ⟨(b1.states.r_BN_N).sub (b2.states.r_BN_N),
     (b1.futureStates.r_BN_N).sub (b2.futureStates.r_BN_N)⟩
    ⟨(b1.states.r_BN_N).sub (b2.states.r_BN_N),
     (b1.futureStates.r_BN_N).sub (b2.futureStates.r_BN_N)⟩

/-- The acceptance test of line 1402 in square-compared form: the source tests
`sqrt(|d0|) < R || sqrt(|d1|) < R` with `R` the sum of the bounding radii;
since `sqrt` is non-negative and strictly monotone this is equivalent to
`0 < R ∧ (|d0| < R² ∨ |d1| < R²)` (`closePair_iff_sqrt`), which stays inside
the ring. -/
def closePair (b1 b2 : geometry α) : Bool :=
  let d := sphereDistBounds b1 b2
  let R := b1.boundingRadius + b2.boundingRadius
  decide (0 < R ∧ (|d.1| < R ^ 2 ∨ |d.2| < R ^ 2))

/-- The acceptance test of line 1402 in its literal square-root form, over the
real numbers. -/
def closePairSqrt (b1 b2 : geometry ℚ) : Prop :=
  Real.sqrt |((sphereDistBounds b1 b2).1 : ℝ)| <
      ((b1.boundingRadius + b2.boundingRadius : ℚ) : ℝ) ∨
    Real.sqrt |((sphereDistBounds b1 b2).2 : ℝ)| <
      ((b1.boundingRadius + b2.boundingRadius : ℚ) : ℝ)

/-- Square-comparison form and square-root form of the broad-phase test agree. -/
theorem closePair_iff_sqrt (b1 b2 : geometry ℚ) :
    closePair b1 b2 = true ↔ closePairSqrt b1 b2 := by
  unfold closePair closePairSqrt
  rw [decide_eq_true_iff]
  set d1 := (sphereDistBounds b1 b2).1 with hd1
  set d2 := (sphereDistBounds b1 b2).2 with hd2
  set R := b1.boundingRadius + b2.boundingRadius with hR
  rcases le_or_lt R 0 with hle | hpos
  · have hR0 : ((R : ℚ) : ℝ) ≤ 0 := by exact_mod_cast hle
    constructor
    · rintro ⟨h0, -⟩; linarith
    · rintro (h | h) <;>
        linarith [Real.sqrt_nonneg |((d1 : ℚ) : ℝ)|, Real.sqrt_nonneg |((d2 : ℚ) : ℝ)|]
  · have hposR : (0 : ℝ) < ((R : ℚ) : ℝ) := by exact_mod_cast hpos
    rw [Real.sqrt_lt' hposR, Real.sqrt_lt' hposR]
    constructor
    · rintro ⟨-, h | h⟩
      · left; exact_mod_cast h
      · right; exact_mod_cast h
    · rintro (h | h)
      · exact ⟨hpos, Or.inl (by exact_mod_cast h)⟩
      · exact ⟨hpos, Or.inr (by exact_mod_cast h)⟩

/-- `RigidBodyContactEffector::CheckBoundingSphere` (lines 1385-1407): clear
`closeBodies`, then for every ordered pair `i < j` push `(i, j)` when the
acceptance test passes. -/
def CheckBoundingSphere (Bodies : List (geometry α)) : List (ℕ × ℕ) :=
  (List.range Bodies.length).flatMap (fun i =>
    ((List.range Bodies.length).filter (fun j => decide (i < j))).filterMap (fun j =>
      (Bodies.get? i).bind (fun b1 => (Bodies.get? j).bind (fun b2 =>
        if closePair b1 b2 then some (i, j) else none))))

/-- C3: `CheckBoundingSphere` appends the ordered pair `(i, j)` (with `i`
first) to `closeBodies` if and only if `i < j` and the lower or upper bound it
computes on `‖r_i − r_j‖` over the step interval — the square roots of the
absolute endpoints of the interval dot product of the position-difference
interval with itself — is strictly less than the sum of the two bounding
radii. -/
theorem C3_bounding_sphere_accept (Bodies : List (geometry ℚ)) (i j : ℕ)
    (b1 b2 : geometry ℚ) (h1 : Bodies.get? i = some b1) (h2 : Bodies.get? j = some b2) :
    ((i, j) ∈ CheckBoundingSphere Bodies ↔ i < j ∧ closePairSqrt b1 b2) := by
  unfold CheckBoundingSphere
  rw [List.mem_flatMap]
  constructor
  · rintro ⟨a, ha, hmem⟩
    rcases List.mem_filterMap.mp hmem with ⟨b, hb, heq⟩
    cases hga : Bodies.get? a with
    | none => rw [hga, Option.none_bind] at heq; exact absurd heq (by simp)
    | some x =>
      cases hgb : Bodies.get? b with
      | none =>
        rw [hga, hgb, Option.some_bind, Option.none_bind] at heq
        exact absurd heq (by simp)
      | some y =>
        rw [hga, hgb, Option.some_bind, Option.some_bind] at heq
        by_cases hc : closePair x y
        · rw [if_pos hc, Option.some_inj, Prod.mk.injEq] at heq
          obtain ⟨hai, hbj⟩ := heq
          subst hai; subst hbj
          rw [h1] at hga; rw [h2] at hgb
          obtain rfl : b1 = x := by injection hga
          obtain rfl : b2 = y := by injection hgb
          refine ⟨?_, (closePair_iff_sqrt b1 b2).mp hc⟩
          exact of_decide_eq_true (List.mem_filter.mp hb).2
        · rw [if_neg hc] at heq; exact absurd heq (by simp)
  · rintro ⟨hij, hclose⟩
    have hiLen : i < Bodies.length := (List.get?_eq_some.mp h1).1
    have hjLen : j < Bodies.length := (List.get?_eq_some.mp h2).1
    refine ⟨i, List.mem_range.mpr hiLen, List.mem_filterMap.mpr ⟨j, ?_, ?_⟩⟩
    · exact List.mem_filter.mpr ⟨List.mem_range.mpr hjLen, decide_eq_true hij⟩
    · rw [h1, h2, Option.some_bind, Option.some_bind,
        if_pos ((closePair_iff_sqrt b1 b2).mpr hclose)]

/-- A minimal body record for broad-phase witnesses: position `r`, bounding
radius `rad`, identity attitude, no geometry. -/
def c3Body (r : Vec3 ℚ) (rad : ℚ) : geometry ℚ :=
  { boundingRadius := rad, isSpice := false, vertices := [], polyhedron := [],
    coarseSearchList := ⟨(0, 0), []⟩,
    states := ⟨r, Vec3.zero, Mat3.id, Mat3.id⟩,
    futureStates := ⟨r, Vec3.zero, Mat3.id, Mat3.id⟩,
    forceExternal_N := [], torqueExternalPntB_B := [],
    impactTimes := [], impactTimeSteps := [] }

/-- Witness for `C3_bounding_sphere_accept`: a two-body list, the first body at
the origin with radius `1`, the second at `(3, 0, 0)` with radius `3`, both
static over the step. -/
theorem C3_bounding_sphere_accept_witness :
    ((0, 1) ∈ CheckBoundingSphere [c3Body ⟨0, 0, 0⟩ 1, c3Body ⟨3, 0, 0⟩ 3] ↔
      0 < 1 ∧ closePairSqrt (c3Body ⟨0, 0, 0⟩ 1) (c3Body ⟨3, 0, 0⟩ 3)) :=
  C3_bounding_sphere_accept [c3Body ⟨0, 0, 0⟩ 1, c3Body ⟨3, 0, 0⟩ 3] 0 1
    (c3Body ⟨0, 0, 0⟩ 1) (c3Body ⟨3, 0, 0⟩ 3) rfl rfl

/-! ### Mid phase: `SeparatingPlane` and `CheckBoundingBox`
(source lines 1413-1512) -/

/-- `RigidBodyContactEffector::SeparatingPlane` (lines 1488-1512): the
candidate axis separates the two swept boxes when the maximum absolute
endpoint of its interval dot with the displacement interval strictly exceeds
the sum, over both boxes, of each half-extent times the maximum absolute
endpoint of the interval dot of the candidate with that box axis. -/
def SeparatingPlane (displacementInterval candidateInterval : vectorInterval α)
    (box1 box2 : indivBoundingBox α) : Bool :=
  let t0 := IntervalDotProduct candidateInterval displacementInterval
  let lhs := max |t0.1| |t0.2|
  let t1 := IntervalDotProduct candidateInterval box1.xAxisInterval
  let t2 := IntervalDotProduct candidateInterval box1.yAxisInterval
  let t3 := IntervalDotProduct candidateInterval box1.zAxisInterval
  let t4 := IntervalDotProduct candidateInterval box2.xAxisInterval
  let t5 := IntervalDotProduct candidateInterval box2.yAxisInterval
  let t6 := IntervalDotProduct candidateInterval box2.zAxisInterval
  let rhs := box1.halfSize.x * max |t1.1| |t1.2| + box1.halfSize.y * max |t2.1| |t2.2|
    + box1.halfSize.z * max |t3.1| |t3.2| + box2.halfSize.x * max |t4.1| |t4.2|
    + box2.halfSize.y * max |t5.1| |t5.2| + box2.halfSize.z * max |t6.1| |t6.2|
  decide (lhs > rhs)

/-- The swept box of one cluster of one body (lines 1440-1460): each box axis
is the interval between the current and future body-frame axis directions in
inertial coordinates, and the half-extents are the cluster's bounding box
scaled by `boundingBoxFF`. -/
def bodyBox (b : geometry α) (p : halfEdge α) (FF : α) : indivBoundingBox α :=
  { xAxisInterval := ⟨b.states.dcm_NB.mulVec ⟨1, 0, 0⟩, b.futureStates.dcm_NB.mulVec ⟨1, 0, 0⟩⟩
    yAxisInterval := ⟨b.states.dcm_NB.mulVec ⟨0, 1, 0⟩, b.futureStates.dcm_NB.mulVec ⟨0, 1, 0⟩⟩
    zAxisInterval := ⟨b.states.dcm_NB.mulVec ⟨0, 0, 1⟩, b.futureStates.dcm_NB.mulVec ⟨0, 0, 1⟩⟩
    halfSize := Vec3.smul FF p.boundingBox }

/-- The centroid displacement interval of a cluster pair (lines 1436-1438). -/
def clusterDisplacement (b1 b2 : geometry α) (p q : halfEdge α) : vectorInterval α :=
  ⟨((b1.states.r_BN_N).add (b1.states.dcm_NB.mulVec p.centroid)).sub
     ((b2.states.r_BN_N).add (b2.states.dcm_NB.mulVec q.centroid)),
   ((b1.futureStates.r_BN_N).add (b1.futureStates.dcm_NB.mulVec p.centroid)).sub
     ((b2.futureStates.r_BN_N).add (b2.futureStates.dcm_NB.mulVec q.centroid))⟩

/-- The fifteen candidate separating axes of lines 1462-1477, in source order:
the three axes of each box followed by the nine interval cross products. -/
def candidateAxes (b1 b2 : geometry α) (p q : halfEdge α) (FF : α) :
    List (vectorInterval α) :=
  let box1 := bodyBox b1 p FF
  let box2 := bodyBox b2 q FF
  [box1.xAxisInterval, box1.yAxisInterval, box1.zAxisInterval,
   box2.xAxisInterval, box2.yAxisInterval, box2.zAxisInterval,
   IntervalCrossProduct box1.xAxisInterval box2.xAxisInterval,
   IntervalCrossProduct box1.xAxisInterval box2.yAxisInterval,
   IntervalCrossProduct box1.xAxisInterval box2.zAxisInterval,
   IntervalCrossProduct box1.yAxisInterval box2.xAxisInterval,
   IntervalCrossProduct box1.yAxisInterval box2.yAxisInterval,
   IntervalCrossProduct box1.yAxisInterval box2.zAxisInterval,
   IntervalCrossProduct box1.zAxisInterval box2.xAxisInterval,
   IntervalCrossProduct box1.zAxisInterval box2.yAxisInterval,
   IntervalCrossProduct box1.zAxisInterval box2.zAxisInterval]

/-- A cluster pair is retained when none of the fifteen candidate axes
separates it (the chain of early `continue`s in lines 1462-1479). -/
def clusterPairRetained (b1 b2 : geometry α) (p q : halfEdge α) (FF : α) : Bool :=
  (candidateAxes b1 b2 p q FF).all (fun ax =>
    ! SeparatingPlane (clusterDisplacement b1 b2 p q) ax (bodyBox b1 p FF) (bodyBox b2 q FF))

/-- The accepted cluster-pair list of one close body pair, in the traversal
order of the two nested cluster loops (lines 1432-1481). -/
def acceptedOverlaps (b1 b2 : geometry α) (FF : α) : List (ℕ × ℕ) :=
  (List.range b1.polyhedron.length).flatMap (fun p =>
    (List.range b2.polyhedron.length).filterMap (fun q =>
      (b1.polyhedron.get? p).bind (fun hp => (b2.polyhedron.get? q).bind (fun hq =>
        if clusterPairRetained b1 b2 hp hq FF then some (p, q) else none))))

/-- One iteration of the outer loop of `CheckBoundingBox` for one close pair:
compute the accepted cluster pairs and store them on body A — but only when
the accepted list is non-empty (the guard of line 1483). -/
def checkBoundingBoxStep (FF : α) (bodies : List (geometry α)) (pr : ℕ × ℕ) :
    List (geometry α) :=
  match bodies.get? pr.1, bodies.get? pr.2 with
  | some b1, some b2 =>
    let ovl := acceptedOverlaps b1 b2 FF
    if ovl ≠ [] then bodies.set pr.1 { b1 with coarseSearchList := ⟨pr, ovl⟩ }
    else bodies
  | _, _ => bodies

/-- `RigidBodyContactEffector::CheckBoundingBox` (lines 1413-1486): process
every close body pair in order. -/
def CheckBoundingBox (FF : α) (closeBodies : List (ℕ × ℕ))
    (Bodies : List (geometry α)) : List (geometry α) :=
  closeBodies.foldl (checkBoundingBoxStep FF) Bodies

/-- Replace the coarse search list by a fixed dummy; two bodies agree after
`eraseCSL` exactly when they agree on every field other than
`coarseSearchList`. -/
def eraseCSL (b : geometry α) : geometry α := { b with coarseSearchList := ⟨(0, 0), []⟩ }

/-- `acceptedOverlaps` never reads `coarseSearchList`. -/
theorem acceptedOverlaps_eraseCSL (b1 b2 : geometry α) (FF : α) :
    acceptedOverlaps (eraseCSL b1) (eraseCSL b2) FF = acceptedOverlaps b1 b2 FF := rfl

/-- Bodies whose index is never the first element of a processed pair are left
untouched by `CheckBoundingBox`. -/
theorem checkBoundingBox_get_ne (FF : α) (cbs : List (ℕ × ℕ)) (i : ℕ)
    (h : ∀ pr ∈ cbs, pr.1 ≠ i) :
    ∀ bodies : List (geometry α), (CheckBoundingBox FF cbs bodies).get? i = bodies.get? i := by
  induction cbs with
  | nil => intro bodies; rfl
  | cons pr t ih =>
    intro bodies
    have hpr : pr.1 ≠ i := h pr (List.mem_cons_self pr t)
    have ht : ∀ e ∈ t, e.1 ≠ i := fun e he => h e (List.mem_cons_of_mem pr he)
    show (CheckBoundingBox FF t (checkBoundingBoxStep FF bodies pr)).get? i = bodies.get? i
    rw [ih ht]
    unfold checkBoundingBoxStep
    cases h1 : bodies.get? pr.1 with
    | none => rfl
    | some b1 =>
      cases h2 : bodies.get? pr.2 with
      | none => rfl
      | some b2 =>
        dsimp only
        by_cases hovl : acceptedOverlaps b1 b2 FF ≠ []
        · rw [if_pos hovl]; exact List.get?_set_ne _ _ hpr
        · rw [if_neg hovl]

/-- `CheckBoundingBox` can change only the `coarseSearchList` field of any
body: modulo `eraseCSL`, every slot of the body list is preserved. -/
theorem checkBoundingBox_eraseCSL (FF : α) (cbs : List (ℕ × ℕ)) (i : ℕ) :
    ∀ bodies : List (geometry α),
      ((CheckBoundingBox FF cbs bodies).get? i).map eraseCSL = (bodies.get? i).map eraseCSL := by
  induction cbs with
  | nil => intro bodies; rfl
  | cons pr t ih =>
    intro bodies
    show ((CheckBoundingBox FF t (checkBoundingBoxStep FF bodies pr)).get? i).map eraseCSL = _
    rw [ih]
    unfold checkBoundingBoxStep
    cases h1 : bodies.get? pr.1 with
    | none => rfl
    | some b1 =>
      cases h2 : bodies.get? pr.2 with
      | none => rfl
      | some b2 =>
        dsimp only
        by_cases hovl : acceptedOverlaps b1 b2 FF ≠ []
        · rw [if_pos hovl]
          by_cases hi : pr.1 = i
          · subst hi
            have hlt : pr.1 < bodies.length := (List.get?_eq_some.mp h1).1
            rw [List.get?_set_eq_of_lt _ hlt, h1]
            rfl
          · rw [List.get?_set_ne _ _ hi]
        · rw [if_neg hovl]

/-- Two bodies equal modulo `eraseCSL` become equal outright once the
`coarseSearchList` field is overwritten with a common value. -/
theorem setCSL_congr {b b2 : geometry α} (h : eraseCSL b = eraseCSL b2)
    (c : boundingBoxDetail) :
    ({ b with coarseSearchList := c } : geometry α) = { b2 with coarseSearchList := c } := by
  cases b; cases b2
  simpa [eraseCSL, geometry.mk.injEq] using h

/-- C2 (amended): after `CheckBoundingBox` runs, for a close body pair `(A, B)`
such that `A` is not the first body of any later close pair, *provided the
accepted set is non-empty*, body A's `coarseSearchList` holds exactly the
cluster pairs `(p, q)` for which none of the 15 candidate axes separates the
pair — where an axis separates iff the maximum absolute endpoint of its
interval dot with the centroid displacement interval exceeds the sum over both
boxes of each half-extent (scaled by `boundingBoxFF`) times the maximum
absolute endpoint of the interval dot of the axis with that box axis.
(The original claim, without the non-emptiness proviso, is refuted by
`C2_stale_coarse_search_list`: when every cluster pair is separated the source
skips the store — line 1483 — and the stale previous list survives.) -/
theorem C2_coarse_search_list (FF : α) (closeBodies l1 l2 : List (ℕ × ℕ)) (A B : ℕ)
    (Bodies : List (geometry α)) (bA bB : geometry α)
    (hsplit : closeBodies = l1 ++ (A, B) :: l2)
    (hl2 : ∀ pr ∈ l2, pr.1 ≠ A)
    (hbA : Bodies.get? A = some bA) (hbB : Bodies.get? B = some bB)
    (hne : acceptedOverlaps bA bB FF ≠ []) :
    (CheckBoundingBox FF closeBodies Bodies).get? A =
      some { bA with coarseSearchList := ⟨(A, B), acceptedOverlaps bA bB FF⟩ } ∧
    ∀ p q : ℕ, ((p, q) ∈ acceptedOverlaps bA bB FF ↔
      ∃ hp hq, bA.polyhedron.get? p = some hp ∧ bB.polyhedron.get? q = some hq ∧
        ∀ ax ∈ candidateAxes bA bB hp hq FF,
          SeparatingPlane (clusterDisplacement bA bB hp hq) ax
            (bodyBox bA hp FF) (bodyBox bB hq FF) = false) := by
  constructor
  · subst hsplit
    have hmidA := checkBoundingBox_eraseCSL FF l1 A Bodies
    have hmidB := checkBoundingBox_eraseCSL FF l1 B Bodies
    rw [hbA] at hmidA
    rw [hbB] at hmidB
    set mid := CheckBoundingBox FF l1 Bodies with hmid
    cases hgA : mid.get? A with
    | none => rw [hgA] at hmidA; exact absurd hmidA (by simp)
    | some bA1 =>
      cases hgB : mid.get? B with
      | none => rw [hgB] at hmidB; exact absurd hmidB (by simp)
      | some bB1 =>
        rw [hgA] at hmidA; rw [hgB] at hmidB
        have heA : eraseCSL bA1 = eraseCSL bA := by
          simpa using hmidA
        have heB : eraseCSL bB1 = eraseCSL bB := by
          simpa using hmidB
        have hovl : acceptedOverlaps bA1 bB1 FF = acceptedOverlaps bA bB FF := by
          rw [← acceptedOverlaps_eraseCSL bA1 bB1 FF, heA, heB,
            acceptedOverlaps_eraseCSL bA bB FF]
        have hstep : CheckBoundingBox FF (l1 ++ (A, B) :: l2) Bodies =
            CheckBoundingBox FF l2 (checkBoundingBoxStep FF mid (A, B)) := by
          unfold CheckBoundingBox
          rw [List.foldl_append]
          rfl
        rw [hstep, checkBoundingBox_get_ne FF l2 A hl2]
        unfold checkBoundingBoxStep
        rw [hgA, hgB]
        dsimp only
        rw [hovl, if_pos hne]
        have hlt : A < mid.length := (List.get?_eq_some.mp hgA).1
        rw [List.get?_set_eq_of_lt _ hlt]
        rw [setCSL_congr heA]
  · intro p q
    unfold acceptedOverlaps
    rw [List.mem_flatMap]
    constructor
    · rintro ⟨a, ha, hmem⟩
      rcases List.mem_filterMap.mp hmem with ⟨b, hb, heq⟩
      cases hga : bA.polyhedron.get? a with
      | none => rw [hga, Option.none_bind] at heq; exact absurd heq (by simp)
      | some hp =>
        cases hgb : bB.polyhedron.get? b with
        | none =>
          rw [hga, hgb, Option.some_bind, Option.none_bind] at heq
          exact absurd heq (by simp)
        | some hq =>
          rw [hga, hgb, Option.some_bind, Option.some_bind] at heq
          by_cases hc : clusterPairRetained bA bB hp hq FF
          · rw [if_pos hc, Option.some_inj, Prod.mk.injEq] at heq
            obtain ⟨hap, hbq⟩ := heq
            subst hap; subst hbq
            refine ⟨hp, hq, hga, hgb, ?_⟩
            intro ax hax
            have := List.all_eq_true.mp hc ax hax
            simpa using this
          · rw [if_neg hc] at heq; exact absurd heq (by simp)
    · rintro ⟨hp, hq, hgp, hgq, hsep⟩
      have hpLen : p < bA.polyhedron.length := (List.get?_eq_some.mp hgp).1
      have hqLen : q < bB.polyhedron.length := (List.get?_eq_some.mp hgq).1
      refine ⟨p, List.mem_range.mpr hpLen, List.mem_filterMap.mpr ⟨q, List.mem_range.mpr hqLen, ?_⟩⟩
      rw [hgp, hgq, Option.some_bind, Option.some_bind, if_pos ?_]
      exact List.all_eq_true.mpr (fun ax hax => by simpa using hsep ax hax)

/-- A single-cluster body for mid-phase tests: position `r`, identity attitude,
static over the step, cluster centroid at the body origin with unit cube
half-extents, and an arbitrary pre-existing coarse search list `csl`. -/
def c2Body (r : Vec3 ℤ) (csl : boundingBoxDetail) : geometry ℤ :=
  { boundingRadius := 10, isSpice := false, vertices := [],
    polyhedron := [{ faceTriangles := [], edgeIndices := [], faceIndices := [],
                     uniqueVertIndices := [], centroid := ⟨0, 0, 0⟩,
                     boundingBox := ⟨1, 1, 1⟩ }],
    coarseSearchList := csl,
    states := ⟨r, Vec3.zero, Mat3.id, Mat3.id⟩,
    futureStates := ⟨r, Vec3.zero, Mat3.id, Mat3.id⟩,
    forceExternal_N := [], torqueExternalPntB_B := [],
    impactTimes := [], impactTimeSteps := [] }

/-- Witness for `C2_coarse_search_list`: two coincident single-cluster bodies;
no axis separates, so the single cluster pair `(0, 0)` is accepted and stored. -/
theorem C2_coarse_search_list_witness :
    acceptedOverlaps (c2Body ⟨0, 0, 0⟩ ⟨(0, 0), []⟩) (c2Body ⟨0, 0, 0⟩ ⟨(0, 0), []⟩) 1 ≠ [] ∧
    (CheckBoundingBox 1 [(0, 1)]
          [c2Body ⟨0, 0, 0⟩ ⟨(0, 0), []⟩, c2Body ⟨0, 0, 0⟩ ⟨(0, 0), []⟩]).get? 0 =
        some { c2Body ⟨0, 0, 0⟩ ⟨(0, 0), []⟩ with
          coarseSearchList := ⟨(0, 1),
            acceptedOverlaps (c2Body ⟨0, 0, 0⟩ ⟨(0, 0), []⟩)
              (c2Body ⟨0, 0, 0⟩ ⟨(0, 0), []⟩) 1⟩ } :=
  ⟨by decide,
   (C2_coarse_search_list 1 [(0, 1)] [] [] 0 1
      [c2Body ⟨0, 0, 0⟩ ⟨(0, 0), []⟩, c2Body ⟨0, 0, 0⟩ ⟨(0, 0), []⟩]
      (c2Body ⟨0, 0, 0⟩ ⟨(0, 0), []⟩) (c2Body ⟨0, 0, 0⟩ ⟨(0, 0), []⟩)
      rfl (by intro pr h; exact absurd h (List.not_mem_nil pr)) rfl rfl (by decide)).1⟩

/-- C2 counterexample (staleness): two single-cluster bodies `100` apart — the
first box axis already separates the only cluster pair, so the accepted set is
empty — with body 0 carrying a stale `coarseSearchList` containing `(5, 7)`.
After `CheckBoundingBox` runs, body 0's list still holds `(5, 7)`, not the
empty accepted set the claim demands: the store on line 1483 is skipped when
`overlaps` is empty. -/
theorem C2_stale_coarse_search_list :
    acceptedOverlaps (c2Body ⟨0, 0, 0⟩ ⟨(0, 0), [(5, 7)]⟩) (c2Body ⟨100, 0, 0⟩ ⟨(0, 0), []⟩) 1
        = [] ∧
    ((CheckBoundingBox 1 [(0, 1)]
          [c2Body ⟨0, 0, 0⟩ ⟨(0, 0), [(5, 7)]⟩, c2Body ⟨100, 0, 0⟩ ⟨(0, 0), []⟩]).get? 0).map
        (fun b => b.coarseSearchList.overlaps) = some [(5, 7)] := by
  refine ⟨by decide, by decide⟩

/-! ### `computeForceTorque` cycle coordinator (source lines 523-1239)

The geometric narrow phase (lines 646-991) and the impulse solve
(lines 1029-1151) are embedded separately above; inside this skeleton they
appear as the parameters `detect` (per close pair: the contact manifold and
the resulting `currentMaxError`) and `solve` (per close pair and manifold:
the accumulated `forceExternal_N`, `torqueExternalPntB_B`, and the
opposite-body queue entries `forceExternalOther_N`,
`torqueExternalOtherPntB_B`).  Every theorem below holds for every value of
these parameters.  The process-wide PRNG behind `std::rand()` is modelled by
a value stream `randStream : ℕ → ℕ` and a cursor in the state: each
`std::rand()` call reads the stream at the cursor and advances it.  Scalars
are `ℚ`; `1e-15` is `1/10^15` exactly. -/

/-- One contact of the manifold: `(point on A, point on B, normal)` in
inertial coordinates. -/
abbrev Impact : Type := Vec3 ℚ × Vec3 ℚ × Vec3 ℚ

/-- The effector-instance state read and written by `computeForceTorque`:
its output members, the per-sub-step latches (header lines 157-168), the close
body list and the body list, plus the PRNG cursor. -/
structure effectorState where
  forceExternal_N : Vec3 ℚ
  forceExternal_B : Vec3 ℚ
  torqueExternalPntB_B : Vec3 ℚ
  currentBodyInCycle : ℤ
  responseFound : Bool
  lockedToRand : Bool
  timeFound : ℚ
  integrateTimeStep : ℚ
  newMacroTimeStep : Bool
  topTime : ℚ
  topTimeStep : ℚ
  secondInter : Bool
  closeBodies : List (ℕ × ℕ)
  Bodies : List (geometry ℚ)
  randCursor : ℕ
deriving DecidableEq

/-- One `std::rand()`-derived output component:
`((std::rand() % 1000) + 1000.0) / timeStep`. -/
def randVal (randStream : ℕ → ℕ) (cursor : ℕ) (dt : ℚ) : ℚ :=
  (((randStream cursor % 1000 : ℕ) : ℚ) + 1000) / dt

/-- Three consecutive pseudo-random components starting at `cursor`. -/
def randVec (randStream : ℕ → ℕ) (cursor : ℕ) (dt : ℚ) : Vec3 ℚ :=
  ⟨randVal randStream cursor dt, randVal randStream (cursor + 1) dt,
   randVal randStream (cursor + 2) dt⟩

/-- Componentwise division of an `Eigen` vector by a scalar. -/
def Vec3.divScalar (v : Vec3 ℚ) (c : ℚ) : Vec3 ℚ := ⟨v.x / c, v.y / c, v.z / c⟩

/-- Apply an update to the body at index `i` (no-op when out of range; the
source indexes the vector unchecked). -/
def modifyBody (bodies : List (geometry ℚ)) (i : ℕ) (f : geometry ℚ → geometry ℚ) :
    List (geometry ℚ) :=
  match bodies.get? i with
  | some b => bodies.set i (f b)
  | none => bodies

/-- Lines 525-527: zero the three output members on entry. -/
def zeroOutputs (s : effectorState) : effectorState :=
  { s with forceExternal_N := Vec3.zero, forceExternal_B := Vec3.zero,
           torqueExternalPntB_B := Vec3.zero }

/-- Lines 599-624: capture `(topTime, topTimeStep)` on the first call of a new
macro step, and on each repeated call at the top `(t, Δt)` either clear
`secondInter` or advance `currentBodyInCycle` (skipping a Spice body) and
reset the per-sub-step latches.  (Line 616 indexes `Bodies` with the advanced
cycle counter unchecked; the embedding reads `isSpice` as `false` when the
index is out of range.) -/
def cycleBookkeeping (currentTime timeStep : ℚ) (s : effectorState) : effectorState :=
  let s := if s.newMacroTimeStep then
      { s with topTime := currentTime, topTimeStep := timeStep,
               newMacroTimeStep := false, secondInter := false }
    else s
  if |s.topTime - currentTime| < 1 / 10 ^ 15 ∧ |s.topTimeStep - timeStep| < 1 / 10 ^ 15 then
    if s.secondInter then { s with secondInter := false }
    else
      let cbc := s.currentBodyInCycle + 1
      let cbc := if ((s.Bodies.get? cbc.toNat).map (fun b => b.isSpice)).getD false
        then cbc + 1 else cbc
      { s with currentBodyInCycle := cbc, secondInter := true,
               responseFound := false, lockedToRand := false }
  else s

/-- The first close-body entry whose body A is the current body in the cycle
(the `continue` of lines 630-633; every matching iteration of the first loop
returns, so only the first match is processed). -/
def findClosePairA (cbs : List (ℕ × ℕ)) (cbc : ℤ) : Option (ℕ × ℕ) :=
  cbs.find? (fun pr => decide ((pr.1 : ℤ) = cbc))

/-- The body-A branch of `computeForceTorque` (lines 634-1165) for the matched
close pair `pr`, after the narrow phase produced the manifold
`(detect pr).1` with maximum contact error `(detect pr).2`. -/
def processBodyA (detect : ℕ × ℕ → List Impact × ℚ)
    (solve : ℕ × ℕ → List Impact → Vec3 ℚ × Vec3 ℚ × Vec3 ℚ × Vec3 ℚ)
    (randStream : ℕ → ℕ) (maxPosError t dt : ℚ) (s : effectorState) (pr : ℕ × ℕ) :
    effectorState :=
  if s.responseFound then
    if s.timeFound ≥ t ∧ |dt - s.integrateTimeStep| < 1 / 10 ^ 15 then
      { s with
        forceExternal_N :=
          (((s.Bodies.get? pr.1).map (fun b => b.forceExternal_N)).getD []).getLastD Vec3.zero
        torqueExternalPntB_B :=
          (((s.Bodies.get? pr.1).map (fun b => b.torqueExternalPntB_B)).getD []).getLastD Vec3.zero }
    else { s with responseFound := false }
  else
    let impacts := (detect pr).1
    let currentMaxError := (detect pr).2
    if impacts = [] then
      { s with lockedToRand := true, timeFound := t + dt + 1 / 10 ^ 15,
               integrateTimeStep := dt }
    else if s.lockedToRand ∧ |dt - s.integrateTimeStep| < 1 / 10 ^ 15 then
      { s with forceExternal_N := randVec randStream s.randCursor dt,
               torqueExternalPntB_B := randVec randStream (s.randCursor + 3) dt,
               randCursor := s.randCursor + 6 }
    else
      let s := if s.lockedToRand then { s with lockedToRand := false } else s
      if currentMaxError > maxPosError then
        { s with forceExternal_N := randVec randStream s.randCursor dt,
                 torqueExternalPntB_B := randVec randStream (s.randCursor + 3) dt,
                 randCursor := s.randCursor + 6,
                 lockedToRand := true, timeFound := t + dt + 1 / 10 ^ 15,
                 integrateTimeStep := dt }
      else
        let r := solve pr impacts
        let s := { s with forceExternal_N := r.1, torqueExternalPntB_B := r.2.1 }
        if currentMaxError ≤ maxPosError then
          { s with responseFound := true, timeFound := t + dt + 1 / 10 ^ 15,
                   integrateTimeStep := dt,
                   Bodies :=
                     modifyBody
                       (modifyBody s.Bodies pr.1 (fun b =>
                         { b with forceExternal_N := b.forceExternal_N ++ [r.1],
                                  torqueExternalPntB_B := b.torqueExternalPntB_B ++ [r.2.1] }))
                       pr.2 (fun b =>
                         { b with forceExternal_N := b.forceExternal_N ++ [r.2.2.1],
                                  torqueExternalPntB_B := b.torqueExternalPntB_B ++ [r.2.2.2],
                                  impactTimes := b.impactTimes ++ [t],
                                  impactTimeSteps := b.impactTimeSteps ++ [dt] }) }
        else s

/-- The body-B loop of `computeForceTorque` (lines 1169-1237), processed in
list order; entries whose body B is not the current body in the cycle fall
through, as does a matched entry whose queued impact is still in the future. -/
def processLoopB (randStream : ℕ → ℕ) (timeSynchTol t dt : ℚ) (s : effectorState) :
    List (ℕ × ℕ) → effectorState
  | [] => s
  | pr :: rest =>
    if (pr.2 : ℤ) = s.currentBodyInCycle then
      let bB := (s.Bodies.get? pr.2).getD (c3Body Vec3.zero 0)
      if bB.forceExternal_N = [] then s
      else if s.responseFound then
        if s.timeFound ≥ t ∧ |dt - s.integrateTimeStep| < 1 / 10 ^ 15 then
          { s with
            forceExternal_N := (bB.forceExternal_N.headD Vec3.zero).divScalar s.integrateTimeStep
            torqueExternalPntB_B :=
              (bB.torqueExternalPntB_B.headD Vec3.zero).divScalar s.integrateTimeStep }
        else
          { s with responseFound := false,
                   Bodies := modifyBody s.Bodies pr.2 (fun b =>
                     { b with forceExternal_N := b.forceExternal_N.tail,
                              torqueExternalPntB_B := b.torqueExternalPntB_B.tail,
                              impactTimes := b.impactTimes.tail,
                              impactTimeSteps := b.impactTimeSteps.tail }) }
      else if s.lockedToRand ∧ (s.timeFound ≥ t ∧ |dt - s.integrateTimeStep| < 1 / 10 ^ 15) then
        { s with forceExternal_N := randVec randStream s.randCursor dt,
                 torqueExternalPntB_B := randVec randStream (s.randCursor + 3) dt,
                 randCursor := s.randCursor + 6 }
      else
        let s := if s.lockedToRand then { s with lockedToRand := false } else s
        if |t - bB.impactTimes.headD 0| < timeSynchTol ∧
            |dt - bB.impactTimeSteps.headD 0| < timeSynchTol then
          { s with responseFound := true, timeFound := t + dt + 1 / 10 ^ 15,
                   integrateTimeStep := dt,
                   forceExternal_N := (bB.forceExternal_N.headD Vec3.zero).divScalar dt,
                   torqueExternalPntB_B := (bB.torqueExternalPntB_B.headD Vec3.zero).divScalar dt }
        else if t + dt > bB.impactTimes.headD 0 then
          { s with lockedToRand := true, timeFound := t + dt + 1 / 10 ^ 15,
                   integrateTimeStep := dt,
                   forceExternal_N := randVec randStream s.randCursor dt,
                   torqueExternalPntB_B := randVec randStream (s.randCursor + 3) dt,
                   randCursor := s.randCursor + 6 }
        else processLoopB randStream timeSynchTol t dt s rest
    else processLoopB randStream timeSynchTol t dt s rest

/-- `RigidBodyContactEffector::computeForceTorque` (lines 523-1239): zero the
outputs, do the macro/sub-step bookkeeping, then process the first close pair
with body A in the cycle — every matching iteration of the first loop returns
— or, when there is none, run the body-B loop. -/
def computeForceTorque (detect : ℕ × ℕ → List Impact × ℚ)
    (solve : ℕ × ℕ → List Impact → Vec3 ℚ × Vec3 ℚ × Vec3 ℚ × Vec3 ℚ)
    (randStream : ℕ → ℕ) (maxPosError timeSynchTol : ℚ)
    (currentTime timeStep : ℚ) (s : effectorState) : effectorState :=
  let s3 := cycleBookkeeping currentTime timeStep (zeroOutputs s)
  match findClosePairA s3.closeBodies s3.currentBodyInCycle with
  | some pr => processBodyA detect solve randStream maxPosError currentTime timeStep s3 pr
  | none => processLoopB randStream timeSynchTol currentTime timeStep s3 s3.closeBodies

/-- The entry zeroing and bookkeeping phases leave the three outputs zero and
never touch `closeBodies`, `Bodies`, or the PRNG cursor. -/
theorem cycleBookkeeping_outputs (t dt : ℚ) (s : effectorState) :
    (cycleBookkeeping t dt (zeroOutputs s)).forceExternal_N = Vec3.zero ∧
    (cycleBookkeeping t dt (zeroOutputs s)).forceExternal_B = Vec3.zero ∧
    (cycleBookkeeping t dt (zeroOutputs s)).torqueExternalPntB_B = Vec3.zero ∧
    (cycleBookkeeping t dt (zeroOutputs s)).closeBodies = s.closeBodies ∧
    (cycleBookkeeping t dt (zeroOutputs s)).Bodies = s.Bodies ∧
    (cycleBookkeeping t dt (zeroOutputs s)).randCursor = s.randCursor := by
  unfold cycleBookkeeping zeroOutputs
  dsimp only
  split_ifs <;> exact ⟨rfl, rfl, rfl, rfl, rfl, rfl⟩

/-- C7: when the narrow phase produces an empty contact manifold for the
current body pair, `computeForceTorque` returns with `forceExternal_N`,
`forceExternal_B` and `torqueExternalPntB_B` all zero, and sets the
`lockedToRand` marker together with the sub-step time
(`timeFound = t + Δt + 1e-15`, `integrateTimeStep = Δt`) — lines 993-1001,
the outputs having been zeroed on entry (lines 525-527) and never rewritten
on this path. -/
theorem C7_no_contact_outcome (detect : ℕ × ℕ → List Impact × ℚ)
    (solve : ℕ × ℕ → List Impact → Vec3 ℚ × Vec3 ℚ × Vec3 ℚ × Vec3 ℚ)
    (randStream : ℕ → ℕ) (maxPosError timeSynchTol t dt : ℚ)
    (s : effectorState) (pr : ℕ × ℕ)
    (hfind : findClosePairA (cycleBookkeeping t dt (zeroOutputs s)).closeBodies
        (cycleBookkeeping t dt (zeroOutputs s)).currentBodyInCycle = some pr)
    (hrf : (cycleBookkeeping t dt (zeroOutputs s)).responseFound = false)
    (hdet : (detect pr).1 = []) :
    (computeForceTorque detect solve randStream maxPosError timeSynchTol t dt s).forceExternal_N
        = Vec3.zero ∧
    (computeForceTorque detect solve randStream maxPosError timeSynchTol t dt s).forceExternal_B
        = Vec3.zero ∧
    (computeForceTorque detect solve randStream maxPosError timeSynchTol t dt
        s).torqueExternalPntB_B = Vec3.zero ∧
    (computeForceTorque detect solve randStream maxPosError timeSynchTol t dt s).lockedToRand
        = true ∧
    (computeForceTorque detect solve randStream maxPosError timeSynchTol t dt s).timeFound
        = t + dt + 1 / 10 ^ 15 ∧
    (computeForceTorque detect solve randStream maxPosError timeSynchTol t dt
        s).integrateTimeStep = dt := by
  obtain ⟨hf, hb, htq, -, -, -⟩ := cycleBookkeeping_outputs t dt s
  unfold computeForceTorque
  dsimp only
  rw [hfind]
  unfold processBodyA
  rw [hrf]
  simp only [Bool.false_eq_true, if_false, hdet, if_pos rfl]
  exact ⟨hf, hb, htq, rfl, rfl, rfl⟩

/-- Witness for `C7_no_contact_outcome`: a concrete state with one close pair
`(0, 1)`, the cycle at body 0, no prior latches, a mismatched top time (so the
bookkeeping does not advance the cycle), and a detector returning the empty
manifold. -/
theorem C7_no_contact_outcome_witness :
    (computeForceTorque (fun _ => ([], 0)) (fun _ _ => (Vec3.zero, Vec3.zero, Vec3.zero, Vec3.zero))
        (fun n => n) (1 / 1000) (1 / 10 ^ 9) 0 1
        { forceExternal_N := Vec3.zero, forceExternal_B := Vec3.zero,
          torqueExternalPntB_B := Vec3.zero, currentBodyInCycle := 0,
          responseFound := false, lockedToRand := false, timeFound := 0,
          integrateTimeStep := 1, newMacroTimeStep := false, topTime := 123,
          topTimeStep := 1, secondInter := false, closeBodies := [(0, 1)],
          Bodies := [c3Body ⟨0, 0, 0⟩ 1, c3Body ⟨0, 0, 0⟩ 1],
          randCursor := 0 }).lockedToRand = true :=
  (C7_no_contact_outcome (fun _ => ([], 0))
    (fun _ _ => (Vec3.zero, Vec3.zero, Vec3.zero, Vec3.zero)) (fun n => n)
    (1 / 1000) (1 / 10 ^ 9) 0 1 _ (0, 1)
    (by norm_num [cycleBookkeeping, zeroOutputs, findClosePairA, List.find?])
    (by norm_num [cycleBookkeeping, zeroOutputs])
    rfl).2.2.2.1

/-- A pseudo-random output component lies in the band
`[1000/Δt, 1999/Δt]` when `Δt > 0`. -/
theorem randVal_band (randStream : ℕ → ℕ) (cursor : ℕ) (dt : ℚ) (hdt : 0 < dt) :
    1000 / dt ≤ randVal randStream cursor dt ∧ randVal randStream cursor dt ≤ 1999 / dt := by
  unfold randVal
  have h0 : (0 : ℚ) ≤ ((randStream cursor % 1000 : ℕ) : ℚ) := by positivity
  have h1 : ((randStream cursor % 1000 : ℕ) : ℚ) ≤ 999 := by
    have := Nat.mod_lt (randStream cursor) (show 0 < 1000 by norm_num)
    exact_mod_cast Nat.lt_succ_iff.mp (by omega)
  exact ⟨div_le_div_of_nonneg_right (by linarith) hdt.le,
    div_le_div_of_nonneg_right (by linarith) hdt.le⟩

/-- On the replay branch (lines 1002-1013: `responseFound` clear, non-empty
manifold, `lockedToRand` latched with matching `timeStep`), `processBodyA`
returns the state with freshly drawn pseudo-random outputs and the PRNG
advanced by six, everything else unchanged. -/
theorem processBodyA_replay (detect : ℕ × ℕ → List Impact × ℚ)
    (solve : ℕ × ℕ → List Impact → Vec3 ℚ × Vec3 ℚ × Vec3 ℚ × Vec3 ℚ)
    (randStream : ℕ → ℕ) (maxPosError t dt : ℚ) (s : effectorState) (pr : ℕ × ℕ)
    (hrf : s.responseFound = false) (hdet : (detect pr).1 ≠ [])
    (hlk : s.lockedToRand = true) (hmatch : |dt - s.integrateTimeStep| < 1 / 10 ^ 15) :
    processBodyA detect solve randStream maxPosError t dt s pr =
      { s with forceExternal_N := randVec randStream s.randCursor dt,
               torqueExternalPntB_B := randVec randStream (s.randCursor + 3) dt,
               randCursor := s.randCursor + 6 } := by
  unfold processBodyA
  rw [hrf]
  simp only [Bool.false_eq_true, if_false, if_neg hdet]
  rw [if_pos ⟨hlk, hmatch⟩]

/-- The concrete effector state for the replay-determinism counterexample:
`lockedToRand` latched with `integrateTimeStep = Δt = 1`, the cycle at body 0
of the single close pair `(0, 1)`, outside the top-time window, PRNG cursor at
the start of the stream. -/
def c8State : effectorState :=
  { forceExternal_N := Vec3.zero, forceExternal_B := Vec3.zero,
    torqueExternalPntB_B := Vec3.zero, currentBodyInCycle := 0,
    responseFound := false, lockedToRand := true, timeFound := 2,
    integrateTimeStep := 1, newMacroTimeStep := false, topTime := 123,
    topTimeStep := 1, secondInter := false, closeBodies := [(0, 1)],
    Bodies := [c3Body ⟨0, 0, 0⟩ 1, c3Body ⟨0, 0, 0⟩ 1], randCursor := 0 }

/-- A detector returning a non-empty manifold (contents irrelevant on the
replay path). -/
def c8Detect : ℕ × ℕ → List Impact × ℚ := fun _ => ([(Vec3.zero, Vec3.zero, ⟨0, 0, 1⟩)], 0)

/-- A trivial solver (never reached on the replay path). -/
def c8Solve : ℕ × ℕ → List Impact → Vec3 ℚ × Vec3 ℚ × Vec3 ℚ × Vec3 ℚ :=
  fun _ _ => (Vec3.zero, Vec3.zero, Vec3.zero, Vec3.zero)

/-- First invocation of `computeForceTorque` on `c8State` at `(t, Δt) = (0, 1)`
with the PRNG stream `fun n => n`. -/
theorem c8_first_call :
    computeForceTorque c8Detect c8Solve (fun n => n) (1 / 1000) (1 / 10 ^ 9) 0 1 c8State =
      { c8State with forceExternal_N := ⟨1000, 1001, 1002⟩,
                     torqueExternalPntB_B := ⟨1003, 1004, 1005⟩,
                     randCursor := 6 } := by
  have hbk : cycleBookkeeping 0 1 (zeroOutputs c8State) = c8State := by
    norm_num [cycleBookkeeping, zeroOutputs, c8State]
  have hfind : findClosePairA c8State.closeBodies c8State.currentBodyInCycle = some (0, 1) := by
    norm_num [findClosePairA, c8State, List.find?]
  unfold computeForceTorque
  dsimp only
  rw [hbk, hfind]
  dsimp only
  rw [processBodyA_replay _ _ _ _ _ _ _ _ rfl (by norm_num [c8Detect]) rfl (by norm_num [c8State])]
  norm_num [randVec, randVal, c8State]

/-- Second invocation, from the state the first invocation returned. -/
theorem c8_second_call :
    computeForceTorque c8Detect c8Solve (fun n => n) (1 / 1000) (1 / 10 ^ 9) 0 1
        { c8State with forceExternal_N := ⟨1000, 1001, 1002⟩,
                       torqueExternalPntB_B := ⟨1003, 1004, 1005⟩,
                       randCursor := 6 } =
      { c8State with forceExternal_N := ⟨1006, 1007, 1008⟩,
                     torqueExternalPntB_B := ⟨1009, 1010, 1011⟩,
                     randCursor := 12 } := by
  have hbk : cycleBookkeeping 0 1 (zeroOutputs
      { c8State with forceExternal_N := ⟨1000, 1001, 1002⟩,
                     torqueExternalPntB_B := ⟨1003, 1004, 1005⟩,
                     randCursor := 6 }) = { c8State with randCursor := 6 } := by
    norm_num [cycleBookkeeping, zeroOutputs, c8State]
  have hfind : findClosePairA ({ c8State with randCursor := 6 } : effectorState).closeBodies
      ({ c8State with randCursor := 6 } : effectorState).currentBodyInCycle = some (0, 1) := by
    norm_num [findClosePairA, c8State, List.find?]
  unfold computeForceTorque
  dsimp only
  rw [hbk, hfind]
  dsimp only
  rw [processBodyA_replay _ _ _ _ _ _ _ _ rfl (by norm_num [c8Detect]) rfl (by norm_num [c8State])]
  norm_num [randVec, randVal, c8State]

/-- C8 counterexample: the claim — that two invocations of
`computeForceTorque` at identical `(currentTime, timeStep)` while
`lockedToRand` is set return identical `forceExternal_N` and
`torqueExternalPntB_B` — is false.  Both invocations take the replay branch
(lines 1002-1013), but each of them calls `std::rand()` six fresh times; with
the stream `fun n => n` the first call returns force `(1000, 1001, 1002)` and
torque `(1003, 1004, 1005)`, the second force `(1006, 1007, 1008)` and torque
`(1009, 1010, 1011)`. -/
theorem C8_replay_not_deterministic :
    c8State.lockedToRand = true ∧
    ¬ ((computeForceTorque c8Detect c8Solve (fun n => n) (1 / 1000) (1 / 10 ^ 9) 0 1
          (computeForceTorque c8Detect c8Solve (fun n => n) (1 / 1000) (1 / 10 ^ 9) 0 1
            c8State)).forceExternal_N =
        (computeForceTorque c8Detect c8Solve (fun n => n) (1 / 1000) (1 / 10 ^ 9) 0 1
          c8State).forceExternal_N) ∧
    ¬ ((computeForceTorque c8Detect c8Solve (fun n => n) (1 / 1000) (1 / 10 ^ 9) 0 1
          (computeForceTorque c8Detect c8Solve (fun n => n) (1 / 1000) (1 / 10 ^ 9) 0 1
            c8State)).torqueExternalPntB_B =
        (computeForceTorque c8Detect c8Solve (fun n => n) (1 / 1000) (1 / 10 ^ 9) 0 1
          c8State).torqueExternalPntB_B) := by
  rw [c8_first_call, c8_second_call]
  refine ⟨rfl, ?_, ?_⟩ <;>
  · intro h
    have := congrArg Vec3.x h
    norm_num at this

/-- C8 (amended): while the over-penetration marker `lockedToRand` is set with
a matching `timeStep`, every invocation of `computeForceTorque` takes the same
replay branch: it leaves the marker set, draws six fresh values from the
process-wide PRNG (advancing it by six), and returns `forceExternal_N` and
`torqueExternalPntB_B` components each lying in the band
`[1000/Δt, 1999/Δt]`.  Two such invocations return componentwise identical
values only when their PRNG draws coincide, which
`C8_replay_not_deterministic` shows need not happen. -/
theorem C8_replay_band (detect : ℕ × ℕ → List Impact × ℚ)
    (solve : ℕ × ℕ → List Impact → Vec3 ℚ × Vec3 ℚ × Vec3 ℚ × Vec3 ℚ)
    (randStream : ℕ → ℕ) (maxPosError timeSynchTol t dt : ℚ)
    (s : effectorState) (pr : ℕ × ℕ)
    (hfind : findClosePairA (cycleBookkeeping t dt (zeroOutputs s)).closeBodies
        (cycleBookkeeping t dt (zeroOutputs s)).currentBodyInCycle = some pr)
    (hrf : (cycleBookkeeping t dt (zeroOutputs s)).responseFound = false)
    (hdet : (detect pr).1 ≠ [])
    (hlk : (cycleBookkeeping t dt (zeroOutputs s)).lockedToRand = true)
    (hmatch : |dt - (cycleBookkeeping t dt (zeroOutputs s)).integrateTimeStep| < 1 / 10 ^ 15)
    (hdt : 0 < dt) :
    (computeForceTorque detect solve randStream maxPosError timeSynchTol t dt s).lockedToRand
        = true ∧
    (computeForceTorque detect solve randStream maxPosError timeSynchTol t dt s).randCursor
        = s.randCursor + 6 ∧
    (∀ c ∈ [(computeForceTorque detect solve randStream maxPosError timeSynchTol t dt
          s).forceExternal_N.x,
        (computeForceTorque detect solve randStream maxPosError timeSynchTol t dt
          s).forceExternal_N.y,
        (computeForceTorque detect solve randStream maxPosError timeSynchTol t dt
          s).forceExternal_N.z,
        (computeForceTorque detect solve randStream maxPosError timeSynchTol t dt
          s).torqueExternalPntB_B.x,
        (computeForceTorque detect solve randStream maxPosError timeSynchTol t dt
          s).torqueExternalPntB_B.y,
        (computeForceTorque detect solve randStream maxPosError timeSynchTol t dt
          s).torqueExternalPntB_B.z],
      1000 / dt ≤ c ∧ c ≤ 1999 / dt) := by
  obtain ⟨-, -, -, -, -, hcur⟩ := cycleBookkeeping_outputs t dt s
  have hrun : computeForceTorque detect solve randStream maxPosError timeSynchTol t dt s =
      { cycleBookkeeping t dt (zeroOutputs s) with
        forceExternal_N :=
          randVec randStream (cycleBookkeeping t dt (zeroOutputs s)).randCursor dt
        torqueExternalPntB_B :=
          randVec randStream ((cycleBookkeeping t dt (zeroOutputs s)).randCursor + 3) dt
        randCursor := (cycleBookkeeping t dt (zeroOutputs s)).randCursor + 6 } := by
    unfold computeForceTorque
    dsimp only
    rw [hfind]
    exact processBodyA_replay _ _ _ _ _ _ _ _ hrf hdet hlk hmatch
  rw [hrun]
  refine ⟨hlk, by rw [hcur], ?_⟩
  intro c hc
  simp only [randVec, List.mem_cons, List.not_mem_nil, or_false] at hc
  rcases hc with h | h | h | h | h | h <;> subst h <;>
    exact randVal_band randStream _ dt hdt

/-- Witness for `C8_replay_band` at the concrete replay state `c8State`. -/
theorem C8_replay_band_witness :
    (computeForceTorque c8Detect c8Solve (fun n => n) (1 / 1000) (1 / 10 ^ 9) 0 1
        c8State).lockedToRand = true ∧
    (computeForceTorque c8Detect c8Solve (fun n => n) (1 / 1000) (1 / 10 ^ 9) 0 1
        c8State).randCursor = c8State.randCursor + 6 := by
  have h := C8_replay_band c8Detect c8Solve (fun n => n) (1 / 1000) (1 / 10 ^ 9) 0 1
    c8State (0, 1)
    (by norm_num [cycleBookkeeping, zeroOutputs, findClosePairA, List.find?, c8State])
    (by norm_num [cycleBookkeeping, zeroOutputs, c8State])
    (by norm_num [c8Detect])
    (by norm_num [cycleBookkeeping, zeroOutputs, c8State])
    (by norm_num [cycleBookkeeping, zeroOutputs, c8State])
    (by norm_num)
  exact ⟨h.1, h.2.1⟩

/-- On the no-contact, replay, and over-penetration branches (lines 993-1028),
`processBodyA` leaves the body list, the close-body list, and the cycle
bookkeeping fields untouched. -/
theorem processBodyA_frame (detect : ℕ × ℕ → List Impact × ℚ)
    (solve : ℕ × ℕ → List Impact → Vec3 ℚ × Vec3 ℚ × Vec3 ℚ × Vec3 ℚ)
    (randStream : ℕ → ℕ) (maxPosError t dt : ℚ) (s : effectorState) (pr : ℕ × ℕ)
    (hrf : s.responseFound = false)
    (hpath : (detect pr).1 = [] ∨ maxPosError < (detect pr).2 ∨
      (s.lockedToRand = true ∧ |dt - s.integrateTimeStep| < 1 / 10 ^ 15)) :
    (processBodyA detect solve randStream maxPosError t dt s pr).Bodies = s.Bodies ∧
    (processBodyA detect solve randStream maxPosError t dt s pr).closeBodies = s.closeBodies ∧
    (processBodyA detect solve randStream maxPosError t dt s pr).topTime = s.topTime ∧
    (processBodyA detect solve randStream maxPosError t dt s pr).topTimeStep = s.topTimeStep ∧
    (processBodyA detect solve randStream maxPosError t dt s pr).currentBodyInCycle
        = s.currentBodyInCycle ∧
    (processBodyA detect solve randStream maxPosError t dt s pr).newMacroTimeStep
        = s.newMacroTimeStep ∧
    (processBodyA detect solve randStream maxPosError t dt s pr).secondInter = s.secondInter := by
  unfold processBodyA
  rw [hrf]
  simp only [Bool.false_eq_true, if_false]
  by_cases himp : (detect pr).1 = []
  · rw [if_pos himp]; exact ⟨rfl, rfl, rfl, rfl, rfl, rfl, rfl⟩
  · rw [if_neg himp]
    by_cases hrep : s.lockedToRand = true ∧ |dt - s.integrateTimeStep| < 1 / 10 ^ 15
    · rw [if_pos hrep]; exact ⟨rfl, rfl, rfl, rfl, rfl, rfl, rfl⟩
    · rw [if_neg hrep]
      have hover : maxPosError < (detect pr).2 := by
        rcases hpath with h | h | h
        · exact absurd h himp
        · exact h
        · exact absurd h hrep
      by_cases hlk : s.lockedToRand = true
      · rw [if_pos hlk, if_pos hover]; exact ⟨rfl, rfl, rfl, rfl, rfl, rfl, rfl⟩
      · rw [if_neg hlk, if_pos hover]; exact ⟨rfl, rfl, rfl, rfl, rfl, rfl, rfl⟩

/-- While `responseFound` is clear, the body-B loop never modifies the body
list, the close-body list, or the cycle bookkeeping fields (the only
body-mutating path of the loop, the queue pop on lines 1190-1193, needs
`responseFound`). -/
theorem processLoopB_frame (randStream : ℕ → ℕ) (timeSynchTol t dt : ℚ) :
    ∀ (l : List (ℕ × ℕ)) (s : effectorState), s.responseFound = false →
      (processLoopB randStream timeSynchTol t dt s l).Bodies = s.Bodies ∧
      (processLoopB randStream timeSynchTol t dt s l).closeBodies = s.closeBodies ∧
      (processLoopB randStream timeSynchTol t dt s l).topTime = s.topTime ∧
      (processLoopB randStream timeSynchTol t dt s l).topTimeStep = s.topTimeStep ∧
      (processLoopB randStream timeSynchTol t dt s l).currentBodyInCycle
          = s.currentBodyInCycle ∧
      (processLoopB randStream timeSynchTol t dt s l).newMacroTimeStep = s.newMacroTimeStep ∧
      (processLoopB randStream timeSynchTol t dt s l).secondInter = s.secondInter := by
  intro l
  induction l with
  | nil => intro s h; exact ⟨rfl, rfl, rfl, rfl, rfl, rfl, rfl⟩
  | cons pr rest ih =>
    intro s h
    unfold processLoopB
    by_cases hm : (pr.2 : ℤ) = s.currentBodyInCycle
    · rw [if_pos hm]
      dsimp only
      rw [h]
      simp only [Bool.false_eq_true, if_false]
      split_ifs <;> first
        | exact ⟨rfl, rfl, rfl, rfl, rfl, rfl, rfl⟩
        | exact ih _ h
        | exact ih _ rfl
    · rw [if_neg hm]
      exact ih _ h

/-- C10: when `computeForceTorque` takes the no-contact path, the
over-penetration (pseudo-random) path, the replay path, or the body-B loop
without a stored response, it modifies no per-body data: the body list (and
with it every body's vertices, polyhedron, states, future states and queued
outputs) and the close-body list are returned unchanged, and of the effector's
own fields beyond the entry bookkeeping only the output members, the sub-step
latches (`lockedToRand`, `responseFound`, `timeFound`, `integrateTimeStep`)
and the PRNG cursor can differ. -/
theorem C10_error_paths_frame (detect : ℕ × ℕ → List Impact × ℚ)
    (solve : ℕ × ℕ → List Impact → Vec3 ℚ × Vec3 ℚ × Vec3 ℚ × Vec3 ℚ)
    (randStream : ℕ → ℕ) (maxPosError timeSynchTol t dt : ℚ) (s : effectorState)
    (hrf : (cycleBookkeeping t dt (zeroOutputs s)).responseFound = false)
    (hpath :
      (∃ pr, findClosePairA (cycleBookkeeping t dt (zeroOutputs s)).closeBodies
          (cycleBookkeeping t dt (zeroOutputs s)).currentBodyInCycle = some pr ∧
        ((detect pr).1 = [] ∨ maxPosError < (detect pr).2 ∨
         ((cycleBookkeeping t dt (zeroOutputs s)).lockedToRand = true ∧
          |dt - (cycleBookkeeping t dt (zeroOutputs s)).integrateTimeStep| < 1 / 10 ^ 15))) ∨
      findClosePairA (cycleBookkeeping t dt (zeroOutputs s)).closeBodies
          (cycleBookkeeping t dt (zeroOutputs s)).currentBodyInCycle = none) :
    (computeForceTorque detect solve randStream maxPosError timeSynchTol t dt s).Bodies
        = s.Bodies ∧
    (computeForceTorque detect solve randStream maxPosError timeSynchTol t dt s).closeBodies
        = s.closeBodies ∧
    (computeForceTorque detect solve randStream maxPosError timeSynchTol t dt s).topTime
        = (cycleBookkeeping t dt (zeroOutputs s)).topTime ∧
    (computeForceTorque detect solve randStream maxPosError timeSynchTol t dt s).topTimeStep
        = (cycleBookkeeping t dt (zeroOutputs s)).topTimeStep ∧
    (computeForceTorque detect solve randStream maxPosError timeSynchTol t dt
        s).currentBodyInCycle = (cycleBookkeeping t dt (zeroOutputs s)).currentBodyInCycle ∧
    (computeForceTorque detect solve randStream maxPosError timeSynchTol t dt
        s).newMacroTimeStep = (cycleBookkeeping t dt (zeroOutputs s)).newMacroTimeStep ∧
    (computeForceTorque detect solve randStream maxPosError timeSynchTol t dt s).secondInter
        = (cycleBookkeeping t dt (zeroOutputs s)).secondInter := by
  obtain ⟨-, -, -, hcb, hbod, -⟩ := cycleBookkeeping_outputs t dt s
  unfold computeForceTorque
  dsimp only
  rcases hpath with ⟨pr, hf, hp⟩ | hnone
  · rw [hf]
    obtain ⟨h1, h2, h3, h4, h5, h6, h7⟩ :=
      processBodyA_frame detect solve randStream maxPosError t dt
        (cycleBookkeeping t dt (zeroOutputs s)) pr hrf hp
    exact ⟨h1.trans hbod, h2.trans hcb, h3, h4, h5, h6, h7⟩
  · rw [hnone]
    obtain ⟨h1, h2, h3, h4, h5, h6, h7⟩ :=
      processLoopB_frame randStream timeSynchTol t dt
        (cycleBookkeeping t dt (zeroOutputs s)).closeBodies
        (cycleBookkeeping t dt (zeroOutputs s)) hrf
    exact ⟨h1.trans hbod, h2.trans hcb, h3, h4, h5, h6, h7⟩

/-- Witness for `C10_error_paths_frame`: the no-contact path on a concrete
two-body state (empty manifold from the detector). -/
theorem C10_error_paths_frame_witness :
    (computeForceTorque (fun _ => ([], 0))
        (fun _ _ => (Vec3.zero, Vec3.zero, Vec3.zero, Vec3.zero))
        (fun n => n) (1 / 1000) (1 / 10 ^ 9) 0 1 c8State).Bodies = c8State.Bodies ∧
    (computeForceTorque (fun _ => ([], 0))
        (fun _ _ => (Vec3.zero, Vec3.zero, Vec3.zero, Vec3.zero))
        (fun n => n) (1 / 1000) (1 / 10 ^ 9) 0 1 c8State).closeBodies
      = c8State.closeBodies := by
  have h := C10_error_paths_frame (fun _ => ([], 0))
    (fun _ _ => (Vec3.zero, Vec3.zero, Vec3.zero, Vec3.zero)) (fun n => n)
    (1 / 1000) (1 / 10 ^ 9) 0 1 c8State
    (by norm_num [cycleBookkeeping, zeroOutputs, c8State])
    (Or.inl ⟨(0, 1),
      by norm_num [cycleBookkeeping, zeroOutputs, findClosePairA, List.find?, c8State],
      Or.inl rfl⟩)
  exact ⟨h.1, h.2.1⟩

/-! ### Mesh preprocessor: `ComputeHalfEdge` (source lines 143-508)

Vertices are taken over the generic ring (concrete integer meshes evaluate at
`ℤ`); every Euclidean-norm comparison in this function (the seed ordering by
`faceMaxDist` and the greedy growth test against `maxBoundingBoxDim`) compares
non-negative values, so the embedding carries the squared quantities and
compares against `maxBoundingBoxDim²` (`maxDimSq`), which preserves every
comparison.  The `.obj` shape loop (lines 184-238) only flattens the grouped
triangles in order; the embedding takes the flattened triangle list directly.
The per-face normals/centroids/bounding boxes (lines 195-227) and the
convex-hull-based cluster centroid and bounding box (lines 402-443) are not
read by any of the cluster, edge or unique-vertex outputs; the latter phase is
abstracted by a per-cluster parameter `geo` (see also `clusterGeometryBox`,
which embeds its bounding-box part and proves the half-extent floor for every
hull function). -/

/-- Index into a vertex-index triple, as `allFaces[f][k]` (out-of-range reads
are never reached on the inputs considered). -/
def triGet (f : ℕ × ℕ × ℕ) : ℕ → ℕ
  | 0 => f.1
  | 1 => f.2.1
  | _ => f.2.2

/-- Vertex lookup `vertices[i]`. -/
def vtx (verts : List (Vec3 α)) (i : ℕ) : Vec3 α := verts.getD i Vec3.zero

/-- The squared `faceMaxDist` of one triangle: the maximum squared vertex norm
(line 230-232 takes the maximum of the three vertex norms). -/
def faceMaxDistSq (verts : List (Vec3 α)) (f : ℕ × ℕ × ℕ) : α :=
  max (Vec3.normSq (vtx verts (triGet f 0)))
    (max (Vec3.normSq (vtx verts (triGet f 1))) (Vec3.normSq (vtx verts (triGet f 2))))

/-- The shared-edge test of the six-deep nest (lines 251-268): some index
tuple `(kk, gg, ww, pp)` with `ww ≠ kk`, `gg ≠ pp`,
`f[kk] = g[gg]` and `f[ww] = g[pp]`. -/
def sharesEdge (f g : ℕ × ℕ × ℕ) : Bool :=
  (List.range 3).any (fun kk => (List.range 3).any (fun gg =>
    (List.range 3).any (fun ww => (List.range 3).any (fun pp =>
      decide (ww ≠ kk) && decide (gg ≠ pp) &&
      decide (triGet f kk = triGet g gg) && decide (triGet f ww = triGet g pp)))))

/-- Overwrite the first `-1` slot of a connection row
(`*std::find(row, -1) = v`, lines 261-262). -/
def setFirstNeg1 (v : ℤ) : List ℤ → List ℤ
  | [] => []
  | x :: t => if x = -1 then v :: t else x :: setFirstNeg1 v t

/-- The inner `jj` scan of the adjacency builder (lines 245-274): walk the
unconnected faces, record at most one shared edge per candidate into the
first free slots of both rows, and stop as soon as face `ii`'s row is
complete. -/
def adjScan (faces : List (ℕ × ℕ × ℕ)) (ii : ℕ) :
    List ℕ → List (List ℤ) → List (List ℤ)
  | [], conn => conn
  | jj :: rest, conn =>
    if (conn.getD ii []).contains (-1) = false then conn
    else if jj = ii then adjScan faces ii rest conn
    else if sharesEdge (faces.getD ii (0, 0, 0)) (faces.getD jj (0, 0, 0)) then
      let conn2 := conn.set ii (setFirstNeg1 (jj : ℤ) (conn.getD ii []))
      let conn3 := conn2.set jj (setFirstNeg1 (ii : ℤ) (conn2.getD jj []))
      adjScan faces ii rest conn3
    else adjScan faces ii rest conn

/-- The cleanup after the scan (lines 276-283): look up each recorded
neighbour — `std::vector::at` throws (modelled as `none`) when a slot is
still `-1` — and drop fully connected faces from the unconnected list, then
drop face `ii` itself. -/
def adjEraseGo (conn : List (List ℤ)) (ii : ℕ) : List ℕ → List ℕ → Option (List ℕ)
  | [], acc => some acc
  | jj :: rest, acc =>
    match (conn.getD ii []).getD jj (-1) with
    | Int.negSucc _ => none
    | Int.ofNat c =>
      if (conn.getD c []).contains (-1) = false then
        adjEraseGo conn ii rest (acc.filter (fun x => x ≠ c))
      else adjEraseGo conn ii rest acc

/-- The cleanup proper: scan the three recorded slots, then drop `ii`. -/
def adjErase (conn : List (List ℤ)) (ii : ℕ) (unconnected : List ℕ) : Option (List ℕ) :=
  (adjEraseGo conn ii [0, 1, 2] unconnected).map (fun acc => acc.filter (fun x => x ≠ ii))

/-- The full adjacency construction (lines 240-285): rows start `[-1,-1,-1]`;
every face index is processed in order; rows with no free slot are skipped. -/
def computeAdjacency (faces : List (ℕ × ℕ × ℕ)) : Option (List (List ℤ)) :=
  ((List.range faces.length).foldlM (fun st ii =>
      let conn := st.1
      let unconnected := st.2
      if (conn.getD ii []).contains (-1) then
        let conn2 := adjScan faces ii unconnected conn
        (adjErase conn2 ii unconnected).map (fun un2 => (conn2, un2))
      else some (conn, unconnected))
    (List.replicate faces.length [(-1 : ℤ), -1, -1], List.range faces.length)).map
    (fun st => st.1)

/-- Checked conversion of a completed connection row to a neighbour triple. -/
def rowToTriple (row : List ℤ) : Option (ℕ × ℕ × ℕ) :=
  match row with
  | [Int.ofNat a, Int.ofNat b, Int.ofNat c] => some (a, b, c)
  | _ => none

/-- Neighbour triples of all faces (`none` when the mesh is not closed, in
which case the source has thrown or left `-1` entries that later index
vectors out of bounds). -/
def adjacencyTriples (faces : List (ℕ × ℕ × ℕ)) : Option (List (ℕ × ℕ × ℕ)) :=
  (computeAdjacency faces).bind (fun conn => conn.mapM rowToTriple)

/-- Stable insertion into a key-descending list: the new element goes before
the first element whose key does not exceed its own.  Applied by `isortDesc`
from the right, equal-key elements keep their original relative order, which
realises one valid `std::sort` outcome for the comparator
`faceMaxDist[f1] > faceMaxDist[f2]` (line 288-292; `std::sort` leaves the
order of tie groups unspecified). -/
def insDesc (key : ℕ → α) (x : ℕ) : List ℕ → List ℕ
  | [] => [x]
  | y :: t => if key y ≤ key x then x :: y :: t else y :: insDesc key x t

/-- Stable descending sort of the ungrouped-face list by `faceMaxDist`. -/
def isortDesc (key : ℕ → α) : List ℕ → List ℕ
  | [] => []
  | x :: t => insDesc key x (isortDesc key t)

/-- The faces currently adjacent to the group (lines 323-334): walk the group
in order, collect each neighbour that is neither in the group nor already
collected. -/
def groupAdjacent (conn : List (ℕ × ℕ × ℕ)) (fig : List ℕ) : List ℕ :=
  fig.foldl (fun acc fi =>
    (List.range 3).foldl (fun acc2 jj =>
      let c := triGet (conn.getD fi (0, 0, 0)) jj
      if fig.contains c = false ∧ acc2.contains c = false then acc2 ++ [c] else acc2) acc) []

/-- The squared distance of a candidate face to the group (lines 336-354): the
maximum over the candidate's three vertices and all collected group vertices
of the pairwise squared distance (clamped below by the initial `0`). -/
def groupDistSq (verts : List (Vec3 α)) (faces : List (ℕ × ℕ × ℕ))
    (vig : List (Vec3 α)) (c : ℕ) : α :=
  ((List.range 3).flatMap (fun jj =>
    vig.map (fun v => Vec3.distSq v (vtx verts (triGet (faces.getD c (0, 0, 0)) jj))))).foldl
    max 0

/-- First minimum of a list with its index (`std::min_element` keeps the first
one under strict comparison). -/
def minElement : List α → Option (ℕ × α)
  | [] => none
  | x :: t =>
    (t.foldl (fun st y =>
      let i := st.1
      let best := st.2
      if y < best.2 then (i + 1, (i + 1, y)) else (i + 1, best)) ((0 : ℕ), ((0 : ℕ), x))).2

/-- The inner growth loop (lines 318-380): find the adjacent face with the
smallest squared distance to the group; stop when that distance reaches
`maxDimSq`; otherwise absorb the face (whether or not it is still ungrouped —
the source never checks, which is the defect behind `C9_edge_stored_twice`),
remove it from the ungrouped list, and stop early when nothing remains
ungrouped.  `none` models the source's undefined `min_element` call on an
empty adjacency range, or fuel exhaustion (never reached: each pass grows the
group). -/
def growGroup (verts : List (Vec3 α)) (faces conn : List (ℕ × ℕ × ℕ)) (maxDimSq : α) :
    ℕ → List ℕ → List (Vec3 α) → List ℕ → Option (List ℕ × List ℕ)
  | 0, _, _, _ => none
  | fuel + 1, fig, vig, ungrouped =>
    let adj := groupAdjacent conn fig
    let dists := adj.map (groupDistSq verts faces vig)
    match minElement dists with
    | none => none
    | some (k, dmin) =>
      if maxDimSq ≤ dmin then some (fig, ungrouped)
      else
        let chosen := adj.getD k 0
        let fig2 := fig ++ [chosen]
        let vig2 := vig ++ [vtx verts (triGet (faces.getD chosen (0, 0, 0)) 0),
          vtx verts (triGet (faces.getD chosen (0, 0, 0)) 1),
          vtx verts (triGet (faces.getD chosen (0, 0, 0)) 2)]
        let ungrouped2 := ungrouped.filter (fun x => x ≠ chosen)
        if ungrouped2 = [] then some (fig2, [])
        else growGroup verts faces conn maxDimSq fuel fig2 vig2 ungrouped2

/-- The outer grouping loop (lines 295-383): pop the furthest ungrouped face
as a fresh seed, grow its group, repeat. -/
def clusterLoop (verts : List (Vec3 α)) (faces conn : List (ℕ × ℕ × ℕ)) (maxDimSq : α) :
    ℕ → List ℕ → Option (List (List ℕ))
  | 0, _ => none
  | fuel + 1, ungrouped =>
    match ungrouped with
    | [] => some []
    | seed :: rest =>
      let vig := [vtx verts (triGet (faces.getD seed (0, 0, 0)) 0),
        vtx verts (triGet (faces.getD seed (0, 0, 0)) 1),
        vtx verts (triGet (faces.getD seed (0, 0, 0)) 2)]
      match growGroup verts faces conn maxDimSq (faces.length + 1) [seed] vig rest with
      | none => none
      | some (fig, ungrouped2) =>
        (clusterLoop verts faces conn maxDimSq fuel ungrouped2).map (fun cls => fig :: cls)

/-- The three directed edges of every face of every cluster, with the face's
position in its cluster and the cluster index (lines 445-461): per face the
source pushes `(t0,t1)`, `(t1,t2)`, `(t2,t0)`. -/
def edgeEnumeration (faces : List (ℕ × ℕ × ℕ)) (clusters : List (List ℕ)) :
    List ((ℕ × ℕ) × ℕ × ℕ) :=
  clusters.enum.flatMap (fun cl =>
    cl.2.enum.flatMap (fun fpos =>
      let t := faces.getD fpos.2 (0, 0, 0)
      [((triGet t 0, triGet t 1), fpos.1, cl.1),
       ((triGet t 1, triGet t 2), fpos.1, cl.1),
       ((triGet t 2, triGet t 0), fpos.1, cl.1)]))

/-- Ascending duplicate-free insertion; folding a list from the right models
the contents and iteration order of a `std::set<int>`. -/
def insertSortedNat (x : ℕ) : List ℕ → List ℕ
  | [] => [x]
  | y :: t => if x < y then x :: y :: t else if x = y then y :: t else y :: insertSortedNat x t

/-- The ascending element list of the `std::set` built from `l`. -/
def sortedSetOf (l : List ℕ) : List ℕ := l.foldr insertSortedNat []

/-- The per-cluster unique-vertex assignment (lines 463-469): each cluster
keeps, in ascending order, the vertices of its triangles not yet claimed by
an earlier cluster (`std::set_difference` against the running `totalSet`). -/
def uniqueVertAssignment (faces : List (ℕ × ℕ × ℕ)) :
    List (List ℕ) → List ℕ → List (List ℕ)
  | [], _ => []
  | cl :: rest, total =>
    let uniqueSet := sortedSetOf (cl.flatMap (fun f =>
      [triGet (faces.getD f (0, 0, 0)) 0, triGet (faces.getD f (0, 0, 0)) 1,
       triGet (faces.getD f (0, 0, 0)) 2]))
    let newSet := uniqueSet.filter (fun v => total.contains v = false)
    newSet :: uniqueVertAssignment faces rest (uniqueSet.foldr insertSortedNat total)

/-- The mutable state of the edge-pairing pass (lines 473-497). -/
structure pairState where
  E : List (ℕ × ℕ)
  F : List ℕ
  S : List ℕ
  edgeIt : ℕ
deriving DecidableEq

/-- The inner search of the pairing pass (lines 477-496): scan for the
reversed copy of the edge at `edgeIt`; on a hit, move it next to its partner
(insert a copy at `edgeIt + 1`, erase the original — whose position has
shifted by one — at `searchIt + 1`, in all three parallel vectors, reading
the face and cluster values at `searchIt` before the insertion), advance
`edgeIt`, and keep scanning. -/
def pairScan (searchEdge : ℕ × ℕ) : ℕ → ℕ → pairState → pairState
  | 0, _, st => st
  | fuel + 1, searchIt, st =>
    if searchIt < st.E.length then
      if st.E.getD searchIt (0, 0) = searchEdge then
        let st2 : pairState :=
          { E := (st.E.insertNth (st.edgeIt + 1) searchEdge).eraseIdx (searchIt + 1)
            F := (st.F.insertNth (st.edgeIt + 1) (st.F.getD searchIt 0)).eraseIdx (searchIt + 1)
            S := (st.S.insertNth (st.edgeIt + 1) (st.S.getD searchIt 0)).eraseIdx (searchIt + 1)
            edgeIt := st.edgeIt + 1 }
        pairScan searchEdge fuel (searchIt + 1) st2
      else pairScan searchEdge fuel (searchIt + 1) st
    else st

/-- The outer loop of the pairing pass. -/
def pairLoop : ℕ → pairState → pairState
  | 0, st => st
  | fuel + 1, st =>
    if st.edgeIt < st.E.length then
      let e := st.E.getD st.edgeIt (0, 0)
      let st2 := pairScan (e.2, e.1) st.E.length (st.edgeIt + 1) st
      pairLoop fuel { st2 with edgeIt := st2.edgeIt + 1 }
    else st

/-- Append a stored edge to cluster `i`'s list (out-of-range writes, undefined
in the source, are dropped). -/
def appendAt {β : Type} (ls : List (List β)) (i : ℕ) (x : β) : List (List β) :=
  ls.set i (ls.getD i [] ++ [x])

/-- The save pass (lines 500-504): walk the paired lists with stride two; the
edge at each even position goes to the cluster that introduced it, together
with the face triple (own face, partner's cluster, partner's face). -/
def saveEdges : ℕ → pairState → List (List (ℕ × ℕ)) × List (List (ℕ × ℕ × ℕ)) →
    List (List (ℕ × ℕ)) × List (List (ℕ × ℕ × ℕ))
  | 0, _, acc => acc
  | fuel + 1, st, acc =>
    if st.edgeIt < st.E.length then
      let si := st.S.getD st.edgeIt 0
      let acc2 := (appendAt acc.1 si (st.E.getD st.edgeIt (0, 0)),
        appendAt acc.2 si
          (st.F.getD st.edgeIt 0, st.S.getD (st.edgeIt + 1) 0, st.F.getD (st.edgeIt + 1) 0))
      saveEdges fuel { st with edgeIt := st.edgeIt + 2 } acc2
    else acc

/-- `RigidBodyContactEffector::ComputeHalfEdge` (lines 143-508), composed from
the phases above; `geo` abstracts the convex-hull-based centroid/bounding-box
computation of lines 402-443 (see `clusterGeometryBox`), which no other
output reads. -/
def ComputeHalfEdge (geo : List ℕ → Vec3 α × Vec3 α) (verts : List (Vec3 α))
    (faces : List (ℕ × ℕ × ℕ)) (maxDimSq : α) : Option (List (halfEdge α)) :=
  (adjacencyTriples faces).bind (fun conn =>
    let ungrouped := isortDesc (fun f => faceMaxDistSq verts (faces.getD f (0, 0, 0)))
      (List.range faces.length)
    (clusterLoop verts faces conn maxDimSq (faces.length + 1) ungrouped).map (fun clusters =>
      let uniq := uniqueVertAssignment faces clusters []
      let edges := edgeEnumeration faces clusters
      let st0 : pairState :=
        { E := edges.map (fun e => e.1), F := edges.map (fun e => e.2.1),
          S := edges.map (fun e => e.2.2), edgeIt := 0 }
      let st := pairLoop st0.E.length st0
      let saved := saveEdges (st.E.length + 1) { st with edgeIt := 0 }
        (List.replicate clusters.length [], List.replicate clusters.length [])
      (List.range clusters.length).map (fun si =>
        { faceTriangles := (clusters.getD si []).map (fun f => faces.getD f (0, 0, 0))
          edgeIndices := saved.1.getD si []
          faceIndices := saved.2.getD si []
          uniqueVertIndices := uniq.getD si []
          centroid := (geo (clusters.getD si [])).1
          boundingBox := (geo (clusters.getD si [])).2 })))

/-- A clamped-maximum fold never goes below its start value. -/
theorem le_foldl_clampMax {β : Type} [LinearOrder β] (g : Vec3 α → β) :
    ∀ (l : List (Vec3 α)) (a : β),
      a ≤ l.foldl (fun m p => if g p > m then g p else m) a := by
  intro l
  induction l with
  | nil => intro a; exact le_refl a
  | cons p t ih =>
    intro a
    refine le_trans ?_ (ih (if g p > a then g p else a))
    by_cases h : g p > a
    · rw [if_pos h]; exact le_of_lt h
    · rw [if_neg h]

/-- The cluster centroid / bounding-box phase (lines 402-443), over a field
(the centroid is the midpoint of the axis-aligned box of the hull points) and
for an arbitrary hull function standing for `findConvexHull` (lines
1854-1932; on an empty hull the source falls back to the raw point set, line
405-408).  Each half-extent starts at `minBoundingBoxDim` and can only grow
(lines 430-440). -/
def clusterGeometryBox {F : Type} [LinearOrderedField F]
    (hull : List (Vec3 F) → List (Vec3 F)) (minBoundingBoxDim : F)
    (pts : List (Vec3 F)) : Vec3 F × Vec3 F :=
  let ch0 := hull pts
  let ch := if ch0.length = 0 then pts else ch0
  let maxX := ch.foldl (fun m p => if p.x > m then p.x else m) (-(10 ^ 15))
  let maxY := ch.foldl (fun m p => if p.y > m then p.y else m) (-(10 ^ 15))
  let maxZ := ch.foldl (fun m p => if p.z > m then p.z else m) (-(10 ^ 15))
  let minX := ch.foldl (fun m p => if p.x < m then p.x else m) (10 ^ 15)
  let minY := ch.foldl (fun m p => if p.y < m then p.y else m) (10 ^ 15)
  let minZ := ch.foldl (fun m p => if p.z < m then p.z else m) (10 ^ 15)
  let centroid : Vec3 F := ⟨(maxX + minX) / 2, (maxY + minY) / 2, (maxZ + minZ) / 2⟩
  let b1 := ch.foldl (fun m p => if |p.x - centroid.x| > m then |p.x - centroid.x| else m)
    minBoundingBoxDim
  let b2 := ch.foldl (fun m p => if |p.y - centroid.y| > m then |p.y - centroid.y| else m)
    minBoundingBoxDim
  let b3 := ch.foldl (fun m p => if |p.z - centroid.z| > m then |p.z - centroid.z| else m)
    minBoundingBoxDim
  (centroid, ⟨b1, b2, b3⟩)

/-- The half-extent floor of the claim holds for every cluster point set and
every hull function: each bounding-box component returned by the geometry
phase is at least `minBoundingBoxDim`. -/
theorem clusterGeometryBox_floor {F : Type} [LinearOrderedField F]
    (hull : List (Vec3 F) → List (Vec3 F)) (minBoundingBoxDim : F)
    (pts : List (Vec3 F)) :
    minBoundingBoxDim ≤ (clusterGeometryBox hull minBoundingBoxDim pts).2.x ∧
    minBoundingBoxDim ≤ (clusterGeometryBox hull minBoundingBoxDim pts).2.y ∧
    minBoundingBoxDim ≤ (clusterGeometryBox hull minBoundingBoxDim pts).2.z := by
  unfold clusterGeometryBox
  refine ⟨le_foldl_clampMax _ _ _, le_foldl_clampMax _ _ _, le_foldl_clampMax _ _ _⟩

/-- The number of times an undirected edge `{e.1, e.2}` is stored across all
clusters' `edgeIndices` lists. -/
def edgeUndirCount (clusters : List (halfEdge α)) (e : ℕ × ℕ) : ℕ :=
  ((clusters.flatMap (fun h => h.edgeIndices)).filter
    (fun d => decide (d = e) || decide (d = (e.2, e.1)))).length

/-- The failing mesh: a closed, consistently oriented triangular bipyramid
(5 vertices, 6 faces). -/
def c9Verts : List (Vec3 ℤ) :=
  [⟨2, 1, 0⟩, ⟨1, 0, 1⟩, ⟨0, -1, -2⟩, ⟨2, -1, 1⟩, ⟨-2, -3, 1⟩]

/-- The six triangles of the bipyramid (apexes 0 and 1, equator 2, 3, 4). -/
def c9Faces : List (ℕ × ℕ × ℕ) :=
  [(0, 2, 3), (0, 3, 4), (0, 4, 2), (1, 3, 2), (1, 4, 3), (1, 2, 4)]

set_option maxRecDepth 100000 in
/-- C9: the claim fails on the code and the code is the culprit.  On the
closed bipyramid mesh above with `maxBoundingBoxDim = 5` (squared: `25`), the
greedy growth loop absorbs face `3 = (1, 3, 2)` into a second cluster — the
candidate filter of lines 328-332 checks adjacency but, contrary to the
documented grouping rule, never checks that the face is still ungrouped — so
the returned cluster list stores the undirected edges `{1, 3}` and `{1, 2}`
of that input triangle twice across the clusters' `edgeIndices` lists instead
of exactly once.  The embedded seed order realises the stable descending
`faceMaxDist` sort; the duplication occurs for every tie-consistent
`std::sort` outcome (all 48 were checked during analysis).  The assertions:
the run succeeds with four clusters, face `(1, 3, 2)` (an input triangle)
appears in two clusters, and both of its edges `{1, 3}` and `{2, 1}` are
stored twice. -/
theorem C9_edge_stored_twice :
    (ComputeHalfEdge (fun _ => (Vec3.zero, Vec3.zero)) c9Verts c9Faces (25 : ℤ)).map
        (fun res => (edgeUndirCount res (1, 3), edgeUndirCount res (2, 1), res.length)) =
      some (2, 2, 4) ∧
    (1, 3, 2) ∈ c9Faces ∧
    (ComputeHalfEdge (fun _ => (Vec3.zero, Vec3.zero)) c9Verts c9Faces (25 : ℤ)).map
        (fun res => res.countP (fun h => decide ((1, 3, 2) ∈ h.faceTriangles))) = some 2 := by
  refine ⟨by decide, by decide, by decide⟩
